import Mathlib

/-!
Verification development for the servipal marketplace backend, centred on the
escrow/wallet settlement subsystem: the payment webhook processor, the four
order lifecycle state machines, the multi-party escrow agreement engine and the
dispute resolution overlay.  Python service functions are embedded shallowly as
Lean functions over an explicit datastore state `DB`; each embedded function
mirrors its source statement by statement.  Monetary amounts are rationals,
ids are naturals, enumerated statuses are the string literals the source uses.
Every operation returns `DB × Except Err α` so that effects applied before an
exception survive in the returned state, exactly as uncommitted sequences of
independent datastore calls do in the source.
-/

namespace Servipal

abbrev Money := ℚ

/-- One wallet row: spendable balance plus provisionally held escrow. -/
structure Wallet where
  balance : Money
  escrow_balance : Money
deriving Repr, DecidableEq

/-- One row of the transactions table. -/
structure Txn where
  id : Nat
  tx_ref : String
  amount : Money
  from_user_id : Option Nat
  to_user_id : Option Nat
  order_id : Option Nat
  transaction_type : String
  status : String
deriving Repr, DecidableEq

/-- One row of the food_orders table.  The table carries both the lifecycle
column `order_status` (written by the webhook and the food service) and a
parallel plain `status` column (selected by the dispute helper `get_order`,
which reads both). -/
structure FoodOrder where
  id : Nat
  customer_id : Nat
  vendor_id : Nat
  subtotal : Money
  delivery_fee : Money
  grand_total : Money
  order_status : String
  status : Option String
  payment_status : String
  escrow_status : String
deriving Repr, DecidableEq

/-- One row of the delivery_orders table.  The webhook insert writes
`order_status`; the delivery lifecycle functions read and write `status`. -/
structure DeliveryOrder where
  id : Nat
  sender_id : Nat
  rider_id : Option Nat
  dispatch_id : Option Nat
  delivery_fee : Money
  grand_total : Money
  order_status : String
  status : String
  payment_status : String
  escrow_status : String
  cancelled_by : Option String
  cancel_reason : Option String
deriving Repr, DecidableEq

/-- One row of the product_orders table (fields the payment handler writes). -/
structure ProductOrder where
  id : Nat
  buyer_id : Nat
  seller_id : Nat
  subtotal : Money
  delivery_fee : Money
  grand_total : Money
  order_status : String
  status : Option String
  payment_status : String
  escrow_status : String
deriving Repr, DecidableEq

/-- One cart item inside a staged food order payload. -/
structure FoodPendingItem where
  item_id : Nat
  quantity : Nat
deriving Repr, DecidableEq

/-- Staged food order payload held in Redis under `pending_food_<tx_ref>`. -/
structure FoodPending where
  grand_total : Money
  customer_id : Nat
  vendor_id : Nat
  subtotal : Money
  delivery_fee : Money
  delivery_option : String
  items : List FoodPendingItem
deriving Repr, DecidableEq

/-- Staged delivery payload held in Redis under `pending_delivery_<tx_ref>`. -/
structure DeliveryPending where
  delivery_fee : Money
  sender_id : Nat
  receiver_phone : String
  pickup_location : String
  destination : String
  delivery_type : String
deriving Repr, DecidableEq

/-- Staged product payload held in Redis under `pending_product_<tx_ref>`. -/
structure ProductPending where
  grand_total : Money
  buyer_id : Nat
  seller_id : Nat
  item_id : Nat
  quantity : Nat
  subtotal : Money
  delivery_fee : Money
  delivery_option : String
  delivery_address : String
  additional_info : String
deriving Repr, DecidableEq

/-- One row of the disputes table. -/
structure Dispute where
  id : Nat
  order_id : Nat
  order_type : String
  initiator_id : Nat
  respondent_id : Nat
  reason : String
  status : String
  resolved_by_id : Option Nat
deriving Repr, DecidableEq

/-- One row of the escrow_agreements table (fields the vote/release path reads). -/
structure EscrowAgreement where
  id : Nat
  initiator_id : Nat
  amount : Money
  commission_rate : Money
  commission_amount : Money
  status : String
deriving Repr, DecidableEq

/-- One row of the escrow_agreement_parties table. -/
structure EscrowParty where
  agreement_id : Nat
  user_id : Nat
  role : String
  share_amount : Money
  has_confirmed_completion : Bool
deriving Repr, DecidableEq

/-- One row of the escrow_completion_proposals table. -/
structure EscrowProposal where
  id : Nat
  agreement_id : Nat
  proposer_id : Nat
deriving Repr, DecidableEq

/-- The charges_and_commissions configuration row: each rate is the
vendor/dispatch share (e.g. 0.85), per `get_commission_rate`. -/
structure ChargesConfig where
  delivery_commission_rate : Money
  food_commission_rate : Money
  laundry_commission_rate : Money
  product_commission_rate : Money
deriving Repr, DecidableEq

/-- The datastore plus the Redis pending-intent store.  Wallets and profiles
are total maps keyed by user id; tables are lists in insertion order; the
pending maps are keyed by the full Redis key string. -/
structure DB where
  wallets : Nat → Wallet
  profiles : Nat → Option String
  transactions : List Txn
  foodOrders : List FoodOrder
  foodOrderItems : List (Nat × Nat × Nat)
  laundryOrders : List FoodOrder
  deliveryOrders : List DeliveryOrder
  deliveries : List (Nat × Money)
  productOrders : List ProductOrder
  productOrderItems : List (Nat × Nat × Nat)
  disputes : List Dispute
  agreements : List EscrowAgreement
  parties : List EscrowParty
  proposals : List EscrowProposal
  platform_commissions : List (String × Money)
  pendingFood : String → Option FoodPending
  pendingDelivery : String → Option DeliveryPending
  pendingProduct : String → Option ProductPending
  nextId : Nat
  charges : ChargesConfig

/-- Errors an embedded operation can surface: HTTP-shaped service errors,
an unbound Python name, or the ledger primitive rejecting a negative balance. -/
inductive Err where
  | http (code : Nat) (detail : String)
  | nameError (n : String)
  | attributeError (attr : String)
  | typeError (detail : String)
  | insufficientFunds
deriving Repr, DecidableEq

/-- Replace one wallet row. -/
def setWallet (db : DB) (uid : Nat) (w : Wallet) : DB :=
  { db with wallets := fun u => if u = uid then w else db.wallets u }

/-- Modelled from the spec: the stored procedure `update_wallet_balance`
(missing from src/, only called through `supabase.rpc`).  Per the Ledger
Primitive contract it atomically adjusts one field of one wallet by a signed
delta and rejects any mutation that would drive the field negative. -/
def update_wallet_balance (db : DB) (uid : Nat) (delta : Money) (field : String) :
    DB × Except Err Unit :=
  let w := db.wallets uid
  if field = "balance" then
    if w.balance + delta < 0 then (db, .error .insufficientFunds)
    else (setWallet db uid { w with balance := w.balance + delta }, .ok ())
  else if field = "escrow_balance" then
    if w.escrow_balance + delta < 0 then (db, .error .insufficientFunds)
    else (setWallet db uid { w with escrow_balance := w.escrow_balance + delta }, .ok ())
  else (db, .error (.http 400 "unknown wallet field"))

/-- Update the status of every transactions row with the given id. -/
def setTxnStatus (db : DB) (tid : Nat) (s : String) : DB :=
  { db with transactions :=
      db.transactions.map (fun t => if t.id == tid then { t with status := s } else t) }

/-- Update `order_status` of every food_orders row with the given id. -/
def setFoodOrderStatus (db : DB) (oid : Nat) (s : String) : DB :=
  { db with foodOrders :=
      db.foodOrders.map (fun o => if o.id == oid then { o with order_status := s } else o) }

/-- Embeds `vendor_food_order_action` (src/app/services/food_service.py).
The action is the literal string "accept" or "reject".  Ownership, PENDING
status and PAID payment are checked; a reject refunds the full transaction
amount from the payer escrow to the payer balance and marks the transaction
REFUNDED; both paths then write the new `order_status`.  Returns the new
status and the user message. -/
def vendor_food_order_action (db : DB) (order_id vendor_id : Nat) (action : String) :
    DB × Except Err (String × String) :=
  match db.foodOrders.find? (fun o => o.id == order_id) with
  | none => (db, .error (.http 500 "Action failed: order not found"))
  | some o =>
    if o.vendor_id ≠ vendor_id then (db, .error (.http 403 "Not your order"))
    else if o.order_status ≠ "PENDING" then (db, .error (.http 400 "Order already processed"))
    else if o.payment_status ≠ "PAID" then (db, .error (.http 400 "Payment not completed"))
    else if action = "accept" then
      (setFoodOrderStatus db order_id "PREPARING",
       .ok ("PREPARING", "Order accepted. Preparing food now."))
    else
      match db.transactions.find? (fun t => t.order_id == some order_id) with
      | none => (db, .error (.http 500 "Action failed: transaction not found"))
      | some t =>
        match t.from_user_id with
        | none => (db, .error (.http 500 "Action failed: null payer"))
        | some payer =>
          let amount := t.amount
          let r1 := update_wallet_balance db payer (-amount) "escrow_balance"
          match r1.2 with
          | .error _ => (r1.1, .error (.http 500 "Action failed: wallet"))
          | .ok _ =>
            let r2 := update_wallet_balance r1.1 payer amount "balance"
            match r2.2 with
            | .error _ => (r2.1, .error (.http 500 "Action failed: wallet"))
            | .ok _ =>
              let db3 := setTxnStatus r2.1 t.id "REFUNDED"
              let db4 := setFoodOrderStatus db3 order_id "CANCELLED"
              (db4, .ok ("CANCELLED", "Order rejected."))

/-- Modelled from the spec: the successful effect of the stored procedure
`release_order_payment` (missing from src/).  Per the atomic split-release
contract it debits the payer escrow by the full amount, credits the payee
balance by full amount times the commission-complement share (the configured
food rate, a vendor share such as 0.85) and records the platform commission
on the remainder. -/
def releaseApply (db : DB) (customer_id vendor_id : Nat) (full_amount : Money) : DB :=
  let rate := db.charges.food_commission_rate
  let cw := db.wallets customer_id
  let db1 := setWallet db customer_id
    (Wallet.mk cw.balance (cw.escrow_balance - full_amount))
  let vw := db1.wallets vendor_id
  let db2 := setWallet db1 vendor_id
    (Wallet.mk (vw.balance + full_amount * rate) vw.escrow_balance)
  { db2 with platform_commissions :=
      db2.platform_commissions ++ [("FOOD", full_amount * (1 - rate))] }

/-- Modelled from the spec: the stored procedure `release_order_payment`
(missing from src/, called from `customer_confirm_food_order`).  It performs
the atomic split-release all or nothing, rejecting a debit that would drive
the payer escrow negative. -/
def release_order_payment (db : DB) (customer_id vendor_id : Nat) (full_amount : Money) :
    DB × Except Err Unit :=
  if (db.wallets customer_id).escrow_balance - full_amount < 0 then
    (db, .error .insufficientFunds)
  else (releaseApply db customer_id vendor_id full_amount, .ok ())

/-- Embeds `customer_confirm_food_order` (src/app/services/food_service.py).
Checks ownership and READY status, rejects an already RELEASED transaction,
performs the atomic split-release, marks the transaction RELEASED and the
order COMPLETED. -/
def customer_confirm_food_order (db : DB) (order_id customer_id : Nat) :
    DB × Except Err String :=
  match db.foodOrders.find? (fun o => o.id == order_id) with
  | none => (db, .error (.http 500 "Confirmation failed: order not found"))
  | some o =>
    if o.customer_id ≠ customer_id then (db, .error (.http 403 "Not your order"))
    else if o.order_status ≠ "READY" then
      (db, .error (.http 400 "Order not ready for confirmation yet"))
    else
      match db.transactions.find? (fun t => t.order_id == some order_id) with
      | none => (db, .error (.http 500 "Confirmation failed: transaction not found"))
      | some t =>
        if t.status = "RELEASED" then (db, .error (.http 400 "Already confirmed"))
        else
          let full_amount := t.amount
          let r1 := release_order_payment db customer_id o.vendor_id full_amount
          match r1.2 with
          | .error _ => (r1.1, .error (.http 500 "Confirmation failed: release"))
          | .ok _ =>
            let db2 := setTxnStatus r1.1 t.id "RELEASED"
            let db3 := setFoodOrderStatus db2 order_id "COMPLETED"
            (db3, .ok "COMPLETED")

/-- Concrete datastore exercising the vendor-reject refund path. -/
def C6db : DB :=
  { wallets := fun u => if u = 1 then ⟨0, 5000⟩ else ⟨0, 0⟩
  , profiles := fun _ => none
  , transactions := [⟨7, "FOOD-AB12CD34EF56", 5000, some 1, some 2, some 5, "FOOD_ORDER", "HELD"⟩]
  , foodOrders := [⟨5, 1, 2, 4500, 500, 5000, "PENDING", none, "PAID", "HELD"⟩]
  , foodOrderItems := []
  , laundryOrders := []
  , deliveryOrders := []
  , deliveries := []
  , productOrders := []
  , productOrderItems := []
  , disputes := []
  , agreements := []
  , parties := []
  , proposals := []
  , platform_commissions := []
  , pendingFood := fun _ => none
  , pendingDelivery := fun _ => none
  , pendingProduct := fun _ => none
  , nextId := 8
  , charges := ⟨17/20, 17/20, 17/20, 17/20⟩ }

/-- Concrete datastore exercising the confirm-release path. -/
def C2db : DB :=
  { wallets := fun u => if u = 1 then ⟨0, 5000⟩ else ⟨0, 0⟩
  , profiles := fun _ => none
  , transactions := [⟨7, "FOOD-AB12CD34EF56", 5000, some 1, some 2, some 5, "FOOD_ORDER", "HELD"⟩]
  , foodOrders := [⟨5, 1, 2, 4500, 500, 5000, "READY", none, "PAID", "HELD"⟩]
  , foodOrderItems := []
  , laundryOrders := []
  , deliveryOrders := []
  , deliveries := []
  , productOrders := []
  , productOrderItems := []
  , disputes := []
  , agreements := []
  , parties := []
  , proposals := []
  , platform_commissions := []
  , pendingFood := fun _ => none
  , pendingDelivery := fun _ => none
  , pendingProduct := fun _ => none
  , nextId := 8
  , charges := ⟨17/20, 17/20, 17/20, 17/20⟩ }

/-- Delete one key from the food pending-intent store. -/
def deletePendingFood (db : DB) (k : String) : DB :=
  { db with pendingFood := fun x => if x = k then none else db.pendingFood x }

/-- Delete one key from the delivery pending-intent store. -/
def deletePendingDelivery (db : DB) (k : String) : DB :=
  { db with pendingDelivery := fun x => if x = k then none else db.pendingDelivery x }

/-- Delete one key from the product pending-intent store. -/
def deletePendingProduct (db : DB) (k : String) : DB :=
  { db with pendingProduct := fun x => if x = k then none else db.pendingProduct x }

/-- The datastore calls of `process_successful_food_payment` that can raise:
the idempotency select (outside the try block) and the five calls inside the
try block. -/
inductive FoodStep where
  | idemCheck
  | insertOrder
  | insertItems
  | holdEscrow
  | insertTxn
  | auditLog
deriving Repr, DecidableEq

/-- Oracle for a run in which no datastore call raises. -/
def noFail : FoodStep → Bool := fun _ => false

/-- Return values of the food payment handler, mirroring the dicts and None
the source returns. -/
inductive FoodPayResult where
  | noPending
  | already_processed
  | amount_mismatch
  | success (order_id : Nat)
deriving Repr, DecidableEq

/-- Embeds `process_successful_food_payment` (src/app/services/payment_service.py).
`fails` is an exception oracle: it says which datastore call raises on this
run.  The pending fetch, field extraction and the idempotency select run
before the try block, so an exception there propagates without deleting the
pending intent; every failure inside the try block reaches the except handler,
which deletes the pending intent and re-raises. -/
def process_successful_food_payment (fails : FoodStep → Bool) (tx_ref : String)
    (paid_amount : Money) (flw_ref : String) (db : DB) : DB × Except Err FoodPayResult :=
  let pending_key := "pending_food_" ++ tx_ref
  match db.pendingFood pending_key with
  | none => (db, .ok .noPending)
  | some pending =>
    if fails .idemCheck then (db, .error (.http 500 "transactions select failed"))
    else if db.transactions.any (fun x => x.tx_ref == tx_ref) then
      (deletePendingFood db pending_key, .ok .already_processed)
    else if paid_amount ≠ pending.grand_total then
      (deletePendingFood db pending_key, .ok .amount_mismatch)
    else if fails .insertOrder then
      (deletePendingFood db pending_key, .error (.http 500 "insert food_orders failed"))
    else
      let order_id := db.nextId
      let db1 := { db with
        foodOrders := db.foodOrders ++
          [⟨order_id, pending.customer_id, pending.vendor_id, pending.subtotal,
            pending.delivery_fee, pending.grand_total, "PENDING", none, "PAID", "HELD"⟩],
        nextId := db.nextId + 1 }
      if fails .insertItems then
        (deletePendingFood db1 pending_key, .error (.http 500 "insert food_order_items failed"))
      else
        let db2 := { db1 with
          foodOrderItems := db1.foodOrderItems ++
            pending.items.map (fun it => (order_id, it.item_id, it.quantity)) }
        if fails .holdEscrow then
          (deletePendingFood db2 pending_key, .error (.http 500 "wallet rpc failed"))
        else
          let r3 := update_wallet_balance db2 pending.customer_id pending.grand_total
            "escrow_balance"
          match r3.2 with
          | .error _ =>
            (deletePendingFood r3.1 pending_key, .error (.http 500 "wallet rpc failed"))
          | .ok _ =>
            if fails .insertTxn then
              (deletePendingFood r3.1 pending_key,
               .error (.http 500 "insert transactions failed"))
            else
              let db4 := { r3.1 with
                transactions := r3.1.transactions ++
                  [⟨r3.1.nextId, tx_ref, pending.grand_total, some pending.customer_id,
                    some pending.vendor_id, some order_id, "FOOD_ORDER", "HELD"⟩],
                nextId := r3.1.nextId + 1 }
              let db5 := deletePendingFood db4 pending_key
              if fails .auditLog then
                (deletePendingFood db5 pending_key, .error (.http 500 "audit insert failed"))
              else (db5, .ok (.success order_id))

/-- Embeds `process_successful_delivery_payment`
(src/app/services/payment_service.py): no idempotency select of its own;
amount mismatch discards the intent without materializing; the success path
inserts the delivery order and deliveries rows, holds the fee in the sender
escrow, records the HELD transaction and deletes the intent.  A wallet error
reaches the except handler, which deletes the intent and re-raises. -/
def process_successful_delivery_payment (tx_ref : String) (paid_amount : Money)
    (flw_ref : String) (db : DB) : DB × Except Err Unit :=
  let pending_key := "pending_delivery_" ++ tx_ref
  match db.pendingDelivery pending_key with
  | none => (db, .ok ())
  | some pending =>
    if paid_amount ≠ pending.delivery_fee then
      (deletePendingDelivery db pending_key, .ok ())
    else
      let order_id := db.nextId
      let db1 := { db with
        deliveryOrders := db.deliveryOrders ++
          [DeliveryOrder.mk order_id pending.sender_id none none pending.delivery_fee
            pending.delivery_fee "PAID_NEEDS_RIDER" "" "PAID" "HELD" none none],
        nextId := db.nextId + 1 }
      let db2 := { db1 with deliveries := db1.deliveries ++ [(order_id, pending.delivery_fee)] }
      let r3 := update_wallet_balance db2 pending.sender_id pending.delivery_fee
        "escrow_balance"
      match r3.2 with
      | .error _ =>
        (deletePendingDelivery r3.1 pending_key, .error (.http 500 "wallet rpc failed"))
      | .ok _ =>
        let db4 := { r3.1 with
          transactions := r3.1.transactions ++
            [⟨r3.1.nextId, tx_ref, pending.delivery_fee, some pending.sender_id, none,
              some order_id, "DELIVERY_FEE", "HELD"⟩],
          nextId := r3.1.nextId + 1 }
        (deletePendingDelivery db4 pending_key, .ok ())

/-- Names bound at module level in src/app/services/payment_service.py: the
imported names of lines 1 to 8 and the four functions the module defines.
Line 2 reads `from supabase import AsyncClient`, which binds only
`AsyncClient`, never `supabase`. -/
def payment_service_module_names : List String :=
  ["get_pending", "delete_pending", "AsyncClient", "get_commission_rate", "logger",
   "log_audit_event", "Optional", "Request", "Decimal",
   "process_successful_delivery_payment", "process_successful_food_payment",
   "process_successful_topup_payment", "process_successful_product_payment"]

/-- Local names bound in `process_successful_product_payment` before its
idempotency check runs (parameters and prior assignments). -/
def product_payment_local_names : List String :=
  ["tx_ref", "paid_amount", "flw_ref", "pending_key", "pending",
   "expected_total", "buyer_id", "seller_id", "item_id", "quantity"]

/-- Python name resolution inside `process_successful_product_payment`:
a name is in scope when it is a local or a module-level binding. -/
def productNameInScope (n : String) : Bool :=
  product_payment_local_names.contains n || payment_service_module_names.contains n

/-- Embeds `process_successful_product_payment`
(src/app/services/payment_service.py).  Name lookups the interpreter performs
on unbound names are embedded explicitly: the idempotency check evaluates the
name `supabase` (no parameter and no module binding), and the order insert
inside the try block evaluates the name `grand_total` (never assigned).  An
exception before the try block propagates without deleting the pending
intent; one inside the try block deletes it and re-raises. -/
def process_successful_product_payment (tx_ref : String) (paid_amount : Money)
    (flw_ref : String) (db : DB) : DB × Except Err Unit :=
  let pending_key := "pending_product_" ++ tx_ref
  match db.pendingProduct pending_key with
  | none => (db, .ok ())
  | some pending =>
    if productNameInScope "supabase" then
      if db.transactions.any (fun x => x.tx_ref == tx_ref) then
        (deletePendingProduct db pending_key, .ok ())
      else if paid_amount ≠ pending.grand_total then
        (deletePendingProduct db pending_key, .ok ())
      else if productNameInScope "grand_total" then
        let order_id := db.nextId
        let db1 := { db with
          productOrders := db.productOrders ++
            [⟨order_id, pending.buyer_id, pending.seller_id, pending.subtotal,
              pending.delivery_fee, pending.grand_total, "PENDING", none, "PAID", "HELD"⟩],
          productOrderItems := db.productOrderItems ++
            [(order_id, pending.item_id, pending.quantity)],
          nextId := db.nextId + 1 }
        let r2 := update_wallet_balance db1 pending.buyer_id pending.grand_total
          "escrow_balance"
        match r2.2 with
        | .error _ =>
          (deletePendingProduct r2.1 pending_key, .error (.http 500 "wallet rpc failed"))
        | .ok _ =>
          let db3 := { r2.1 with
            transactions := r2.1.transactions ++
              [⟨r2.1.nextId, tx_ref, pending.grand_total, some pending.buyer_id,
                some pending.seller_id, some order_id, "PRODUCT_ORDER", "HELD"⟩],
            nextId := r2.1.nextId + 1 }
          (deletePendingProduct db3 pending_key, .ok ())
      else
        (deletePendingProduct db pending_key, .error (.nameError "grand_total"))
    else (db, .error (.nameError "supabase"))

/-- Python str.startswith, embedded structurally over the character list so
that it evaluates by kernel reduction. -/
def pyStartsWith (s pre : String) : Bool := pre.data.isPrefixOf s.data

/-- The parsed webhook request body: `event`, `data.status`, `data.tx_ref`,
`data.amount` and `data.id` (the gateway reference). -/
structure WebhookPayload where
  event : String
  data_status : String
  tx_ref : Option String
  amount : Money
  flw_id : String
deriving Repr, DecidableEq

/-- The JSON response statuses of the webhook route. -/
inductive WebhookResp where
  | ignored
  | missing_tx_ref
  | already_processed (t : String)
  | unknown_transaction_type
  | queued (t : String)
deriving Repr, DecidableEq

/-- Embeds `flutterwave_webhook` (src/app/routes/payment_route.py) up to the
enqueue: constant-time signature comparison (401 on mismatch), the
charge.completed/successful filter, tx_ref extraction (missing or empty
tx_ref is reported without processing), the idempotency select against the
transactions table, and prefix dispatch.  `queued t` records that the
matching materialization job for `t` was enqueued; the route itself never
mutates the datastore. -/
def flutterwave_webhook (signature secret_hash : String) (p : WebhookPayload)
    (db : DB) : DB × Except Err WebhookResp :=
  if ¬(signature = secret_hash) then
    (db, .error (.http 401 "Invalid webhook signature"))
  else if p.event ≠ "charge.completed" ∨ p.data_status ≠ "successful" then
    (db, .ok .ignored)
  else
    match p.tx_ref with
    | none => (db, .ok .missing_tx_ref)
    | some t =>
      if t = "" then (db, .ok .missing_tx_ref)
      else if db.transactions.any (fun x => x.tx_ref == t) then
        (db, .ok (.already_processed t))
      else if pyStartsWith t "DEL-" ∨ pyStartsWith t "FOOD-" ∨ pyStartsWith t "TOPUP-"
          ∨ pyStartsWith t "LAUNDRY-" ∨ pyStartsWith t "PRODUCT-" then
        (db, .ok (.queued t))
      else (db, .ok .unknown_transaction_type)

/-- The names payment_route.py lines 3 to 9 import from
app.services.payment_service.  A Python from-import of a name the source
module does not bind raises ImportError when the importing module loads. -/
def payment_route_import_names : List String :=
  ["process_successful_delivery_payment", "process_successful_food_payment",
   "process_successful_topup_payment", "process_successful_laundry_payment",
   "process_successful_product_payment"]

/-- Whether the from-import at the top of payment_route.py succeeds: every
imported name must be a module-level binding of payment_service.  It is not:
process_successful_laundry_payment is never defined there, so loading the
route module raises ImportError. -/
def payment_route_imports_ok : Bool :=
  payment_route_import_names.all (fun n => payment_service_module_names.contains n)

/-- The food materialization job exactly as payment_route.py enqueues it:
queue.enqueue(handler, tx_ref, paid_amount, flw_ref, request) invokes
process_successful_food_payment(tx_ref, paid_amount, flw_ref, request),
binding the Starlette Request object, not a database client, to the
parameter named supabase.  The job reads the pending intent from Redis,
which is unaffected; with no intent it returns None as the source does, and
with an intent its first use of supabase, the idempotency select that runs
before the try block, evaluates request.table and raises AttributeError:
nothing is materialized, the exception propagates, and the pending intent
survives, so every retry of the job fails the same way. -/
def enqueued_food_job (tx_ref : String) (paid_amount : Money) (flw_ref : String)
    (db : DB) : DB × Except Err FoodPayResult :=
  let pending_key := "pending_food_" ++ tx_ref
  match db.pendingFood pending_key with
  | none => (db, .ok .noPending)
  | some _ => (db, .error (.attributeError "table"))

/-- The delivery materialization job exactly as payment_route.py enqueues
it, with the Request bound to the parameter named supabase.  The pending
fetch and the amount check use no datastore client, so the mismatch path
still deletes the intent and returns; on a matching amount the first use of
supabase, the delivery_orders insert inside the try block, raises
AttributeError, and the except handler deletes the intent and re-raises
with no row inserted and no wallet change. -/
def enqueued_delivery_job (tx_ref : String) (paid_amount : Money) (flw_ref : String)
    (db : DB) : DB × Except Err Unit :=
  let pending_key := "pending_delivery_" ++ tx_ref
  match db.pendingDelivery pending_key with
  | none => (db, .ok ())
  | some pending =>
    if paid_amount ≠ pending.delivery_fee then
      (deletePendingDelivery db pending_key, .ok ())
    else
      (deletePendingDelivery db pending_key, .error (.attributeError "table"))

/-- The product materialization job exactly as payment_route.py enqueues
it: process_successful_product_payment takes three parameters, but the
enqueue passes four positional arguments, so the invocation raises
TypeError before the handler body runs: the datastore is untouched and the
pending intent survives. -/
def enqueued_product_job (tx_ref : String) (paid_amount : Money) (flw_ref : String)
    (db : DB) : DB × Except Err Unit :=
  (db, .error (.typeError "4 positional arguments for 3 parameters"))

/-- One sequential delivery of a webhook payload: the route runs and, when it
enqueues a materialization job, that job is picked up and runs to completion
against the datastore before the next delivery arrives.  The job is invoked
exactly as payment_route.py lines 108 to 117 enqueue it, with the Request as
the fourth positional argument, so the executed jobs are the enqueued job
models above.  A TOPUP- reference goes to the top-up handler outside the
settlement subsystem and is modelled as the identity; a LAUNDRY- reference
names a handler that does not exist, which is the failing import recorded by
payment_route_imports_ok. -/
def deliverWebhook (signature secret_hash : String) (p : WebhookPayload) (db : DB) : DB :=
  match flutterwave_webhook signature secret_hash p db with
  | (db1, .ok (.queued t)) =>
    if pyStartsWith t "DEL-" then
      (enqueued_delivery_job t p.amount p.flw_id db1).1
    else if pyStartsWith t "FOOD-" then
      (enqueued_food_job t p.amount p.flw_id db1).1
    else if pyStartsWith t "PRODUCT-" then
      (enqueued_product_job t p.amount p.flw_id db1).1
    else db1
  | (db1, _) => db1

/-- `n` sequential deliveries of the same webhook payload. -/
def iterDeliver (signature secret_hash : String) (p : WebhookPayload) :
    Nat → DB → DB
  | 0, db => db
  | n + 1, db => iterDeliver signature secret_hash p n
      (deliverWebhook signature secret_hash p db)

/-- The datastore state after a successful food materialization run: new
food_orders row, its items, the escrow hold, the HELD transaction, and the
consumed pending intent. -/
def foodSuccessState (db : DB) (tx_ref : String) (pending : FoodPending) : DB :=
  let order_id := db.nextId
  let db1 := { db with
    foodOrders := db.foodOrders ++
      [FoodOrder.mk order_id pending.customer_id pending.vendor_id pending.subtotal
        pending.delivery_fee pending.grand_total "PENDING" none "PAID" "HELD"],
    nextId := db.nextId + 1 }
  let db2 := { db1 with
    foodOrderItems := db1.foodOrderItems ++
      pending.items.map (fun it => (order_id, it.item_id, it.quantity)) }
  let db3 := setWallet db2 pending.customer_id
    (Wallet.mk (db2.wallets pending.customer_id).balance
      ((db2.wallets pending.customer_id).escrow_balance + pending.grand_total))
  let db4 := { db3 with
    transactions := db3.transactions ++
      [Txn.mk db3.nextId tx_ref pending.grand_total (some pending.customer_id)
        (some pending.vendor_id) (some order_id) "FOOD_ORDER" "HELD"],
    nextId := db3.nextId + 1 }
  deletePendingFood db4 ("pending_food_" ++ tx_ref)

/-- Concrete datastore with a staged food intent and no transaction rows. -/
def C1db : DB :=
  { wallets := fun u => if u = 1 then ⟨0, 0⟩ else ⟨0, 0⟩
  , profiles := fun _ => none
  , transactions := []
  , foodOrders := []
  , foodOrderItems := []
  , laundryOrders := []
  , deliveryOrders := []
  , deliveries := []
  , productOrders := []
  , productOrderItems := []
  , disputes := []
  , agreements := []
  , parties := []
  , proposals := []
  , platform_commissions := []
  , pendingFood := fun k =>
      if k = "pending_food_FOOD-AAAA0000BBBB" then
        some ⟨5000, 1, 2, 4500, 500, "PICKUP", [⟨31, 2⟩]⟩
      else none
  , pendingDelivery := fun _ => none
  , pendingProduct := fun _ => none
  , nextId := 10
  , charges := ⟨17/20, 17/20, 17/20, 17/20⟩ }

/-- Concrete datastore that already holds a transaction row for the tx_ref. -/
def C1db2 : DB :=
  { C1db with transactions :=
      [⟨3, "FOOD-AAAA0000BBBB", 5000, some 1, some 2, some 9, "FOOD_ORDER", "HELD"⟩] }

/-- The identical webhook payload as delivered by the gateway. -/
def C1payload : WebhookPayload :=
  ⟨"charge.completed", "successful", some "FOOD-AAAA0000BBBB", 5000, "flw-77"⟩

/-- Concrete datastore with food and delivery intents staged for mismatched
webhook amounts. -/
def C8db : DB :=
  { wallets := fun _ => ⟨0, 0⟩
  , profiles := fun _ => none
  , transactions := []
  , foodOrders := []
  , foodOrderItems := []
  , laundryOrders := []
  , deliveryOrders := []
  , deliveries := []
  , productOrders := []
  , productOrderItems := []
  , disputes := []
  , agreements := []
  , parties := []
  , proposals := []
  , platform_commissions := []
  , pendingFood := fun k =>
      if k = "pending_food_X" then some ⟨5000, 1, 2, 4500, 500, "PICKUP", []⟩ else none
  , pendingDelivery := fun k =>
      if k = "pending_delivery_X" then some ⟨700, 3, "080", "a", "b", "BIKE"⟩ else none
  , pendingProduct := fun _ => none
  , nextId := 1
  , charges := ⟨17/20, 17/20, 17/20, 17/20⟩ }

/-- Decidable equality for operation results, so that concrete runs evaluate. -/
instance exceptDecEq {ε α : Type} [DecidableEq ε] [DecidableEq α] :
    DecidableEq (Except ε α) := fun a b =>
  match a, b with
  | .error e1, .error e2 =>
    if h : e1 = e2 then isTrue (by rw [h])
    else isFalse (fun hh => by cases hh; exact h rfl)
  | .ok a1, .ok a2 =>
    if h : a1 = a2 then isTrue (by rw [h])
    else isFalse (fun hh => by cases hh; exact h rfl)
  | .error _, .ok _ => isFalse (fun hh => by cases hh)
  | .ok _, .error _ => isFalse (fun hh => by cases hh)

/-- Concrete datastore with a staged food intent for the exception scenarios. -/
def C9db : DB :=
  { wallets := fun _ => ⟨0, 0⟩
  , profiles := fun _ => none
  , transactions := []
  , foodOrders := []
  , foodOrderItems := []
  , laundryOrders := []
  , deliveryOrders := []
  , deliveries := []
  , productOrders := []
  , productOrderItems := []
  , disputes := []
  , agreements := []
  , parties := []
  , proposals := []
  , platform_commissions := []
  , pendingFood := fun k =>
      if k = "pending_food_FOOD-E" then some ⟨5000, 1, 2, 4500, 500, "PICKUP", []⟩ else none
  , pendingDelivery := fun _ => none
  , pendingProduct := fun _ => none
  , nextId := 1
  , charges := ⟨17/20, 17/20, 17/20, 17/20⟩ }

/-- Run in which the idempotency select (outside the try block) raises. -/
def C9failIdem : FoodStep → Bool := fun s =>
  match s with
  | .idemCheck => true
  | _ => false

/-- Run in which the food_orders insert (inside the try block) raises. -/
def C9failInsert : FoodStep → Bool := fun s =>
  match s with
  | .insertOrder => true
  | _ => false

/-- Concrete datastore with a staged product intent. -/
def C10db : DB :=
  { wallets := fun _ => ⟨0, 0⟩
  , profiles := fun _ => none
  , transactions := []
  , foodOrders := []
  , foodOrderItems := []
  , laundryOrders := []
  , deliveryOrders := []
  , deliveries := []
  , productOrders := []
  , productOrderItems := []
  , disputes := []
  , agreements := []
  , parties := []
  , proposals := []
  , platform_commissions := []
  , pendingFood := fun _ => none
  , pendingDelivery := fun _ => none
  , pendingProduct := fun k =>
      if k = "pending_product_PRODUCT-7" then
        some ⟨3000, 4, 5, 6, 1, 2800, 200, "PICKUP", "addr", ""⟩
      else none
  , nextId := 1
  , charges := ⟨17/20, 17/20, 17/20, 17/20⟩ }

/-- Update the `status` column of every delivery_orders row with the id. -/
def setDeliveryOrderStatus (db : DB) (oid : Nat) (s : String) : DB :=
  { db with deliveryOrders :=
      db.deliveryOrders.map (fun o => if o.id == oid then { o with status := s } else o) }

/-- Modelled from the spec: the stored procedure
`credit_dispatch_escrow_on_pickup` (missing from src/).  Per the rider-pickup
ledger contract it credits the dispatch escrow by the full delivery fee
without touching the sender escrow and marks the order transaction
TRANSFERRED_TO_DISPATCH.  The Python call site passes the dispatch id and the
amount; the procedure resolves the order transaction, embedded here by
passing the order id explicitly. -/
def credit_dispatch_escrow_on_pickup (db : DB) (dispatch_id : Nat) (full_amount : Money)
    (order_id : Nat) : DB × Bool :=
  let w := db.wallets dispatch_id
  let db1 := setWallet db dispatch_id (Wallet.mk w.balance (w.escrow_balance + full_amount))
  let txns := db1.transactions.map
    (fun t => if t.order_id == some order_id then
      { t with status := "TRANSFERRED_TO_DISPATCH" } else t)
  let db2 := { db1 with transactions := txns }
  (db2, true)

/-- Embeds `rider_picked_up` (src/app/services/delivery_service.py): checks
the assigned rider and the ASSIGNED/PICKED_UP status, credits the dispatch
escrow through the pickup procedure and sets the order status IN_TRANSIT.
The function wraps every exception in a 500 Pickup failed response. -/
def rider_picked_up (db : DB) (order_id rider_id : Nat) : DB × Except Err Unit :=
  match db.deliveryOrders.find? (fun o => o.id == order_id) with
  | none => (db, .error (.http 500 "Pickup failed"))
  | some o =>
    if o.rider_id ≠ some rider_id then (db, .error (.http 500 "Pickup failed"))
    else if ¬(o.status = "ASSIGNED" ∨ o.status = "PICKED_UP") then
      (db, .error (.http 500 "Pickup failed"))
    else
      match o.dispatch_id with
      | none => (db, .error (.http 500 "Pickup failed"))
      | some dispatch_id =>
        let r := credit_dispatch_escrow_on_pickup db dispatch_id o.delivery_fee order_id
        if r.2 then (setDeliveryOrderStatus r.1 order_id "IN_TRANSIT", .ok ())
        else (r.1, .error (.http 500 "Pickup failed"))

/-- The response body of a delivery cancellation. -/
structure DeliveryCancelResp where
  delivery_status : String
  refunded : Bool
  message : String
deriving Repr, DecidableEq

/-- Embeds `cancel_delivery` (src/app/services/delivery_service.py): the
sender or the assigned rider may cancel any order not DELIVERED/COMPLETED;
the row is marked CANCELLED with canceller and reason; the response reports
refunded when the pre-cancel status was PAID_NEEDS_RIDER or ASSIGNED.  The
function performs no wallet call of any kind.  Every exception is wrapped in
a 500 Cancel failed response. -/
def cancel_delivery (db : DB) (order_id current_user_id : Nat)
    (current_user_type : String) (reason : String) :
    DB × Except Err DeliveryCancelResp :=
  match db.deliveryOrders.find? (fun o => o.id == order_id) with
  | none => (db, .error (.http 500 "Cancel failed"))
  | some o =>
    let is_sender := current_user_id == o.sender_id
    let is_rider := current_user_type == "RIDER" && (some current_user_id == o.rider_id)
    if ¬(is_sender || is_rider) = true then (db, .error (.http 500 "Cancel failed"))
    else
      let cancelled_by := if is_sender then "SENDER" else "RIDER"
      if o.status = "DELIVERED" ∨ o.status = "COMPLETED" then
        (db, .error (.http 500 "Cancel failed"))
      else
        let rows := db.deliveryOrders.map
          (fun x => if x.id == order_id then
            { x with
              status := "CANCELLED"
              cancelled_by := some cancelled_by
              cancel_reason := some reason }
            else x)
        let db1 := { db with deliveryOrders := rows }
        let refunded := o.status == "PAID_NEEDS_RIDER" || o.status == "ASSIGNED"
        let message := if refunded then "Delivery cancelled. Full refund processed."
          else "Delivery cancelled. Rider will return item. You will pay delivery fee on receipt confirmation."
        (db1, .ok ⟨"CANCELLED", refunded, message⟩)

/-- Concrete datastore with an ASSIGNED delivery order held in the sender
escrow, for the pickup and cancellation scenarios. -/
def C4db : DB :=
  { wallets := fun u => if u = 3 then ⟨100, 700⟩ else ⟨0, 0⟩
  , profiles := fun _ => none
  , transactions := [⟨5, "DEL-X1", 700, some 3, none, some 20, "DELIVERY_FEE", "HELD"⟩]
  , foodOrders := []
  , foodOrderItems := []
  , laundryOrders := []
  , deliveryOrders := [DeliveryOrder.mk 20 3 (some 7) (some 9) 700 700
      "PAID_NEEDS_RIDER" "ASSIGNED" "PAID" "HELD" none none]
  , deliveries := [(20, 700)]
  , productOrders := []
  , productOrderItems := []
  , disputes := []
  , agreements := []
  , parties := []
  , proposals := []
  , platform_commissions := []
  , pendingFood := fun _ => none
  , pendingDelivery := fun _ => none
  , pendingProduct := fun _ => none
  , nextId := 21
  , charges := ⟨17/20, 17/20, 17/20, 17/20⟩ }

/-- Concrete datastore for the cancellation scenario: order 20 is
PAID_NEEDS_RIDER and its 700 fee is held in the sender escrow. -/
def C3db : DB :=
  { C4db with deliveryOrders := [DeliveryOrder.mk 20 3 (some 7) (some 9) 700 700
      "PAID_NEEDS_RIDER" "PAID_NEEDS_RIDER" "PAID" "HELD" none none] }

/-- The per-recipient transfer loop of `release_escrow_funds`
(src/app/services/escrow_service.py): for each RECIPIENT row, debit the
initiator escrow by the share and credit the recipient balance by the share,
through the wallet procedure.  A wallet error stops the loop with the earlier
transfers applied, as in the source. -/
def release_transfers (db : DB) (initiator_id : Nat) (recipients : List EscrowParty) :
    DB × Except Err Unit :=
  match recipients with
  | [] => (db, .ok ())
  | r :: rest =>
    let r1 := update_wallet_balance db initiator_id (-(r.share_amount)) "escrow_balance"
    match r1.2 with
    | .error e => (r1.1, .error e)
    | .ok _ =>
      let r2 := update_wallet_balance r1.1 r.user_id r.share_amount "balance"
      match r2.2 with
      | .error e => (r2.1, .error e)
      | .ok _ => release_transfers r2.1 initiator_id rest

/-- Embeds `release_escrow_funds` (src/app/services/escrow_service.py):
requires the agreement IN_PROGRESS, transfers every RECIPIENT share from the
initiator escrow to the recipient balance, records the commission row and
marks the agreement COMPLETED.  Every exception is wrapped in a 500 Release
failed response. -/
def release_escrow_funds (db : DB) (agreement_id user_id : Nat) :
    DB × Except Err String :=
  match db.agreements.find? (fun a => a.id == agreement_id) with
  | none => (db, .error (.http 500 "Release failed"))
  | some agreement =>
    if agreement.status ≠ "IN_PROGRESS" then (db, .error (.http 500 "Release failed"))
    else
      let commission_amount := agreement.amount * agreement.commission_rate
      let recipients := db.parties.filter (fun q =>
        q.agreement_id == agreement_id && q.role == "RECIPIENT")
      let rr := release_transfers db agreement.initiator_id recipients
      match rr.2 with
      | .error _ => (rr.1, .error (.http 500 "Release failed"))
      | .ok _ =>
        let rows := rr.1.agreements.map (fun a =>
          if a.id == agreement_id then { a with status := "COMPLETED" } else a)
        let db1 := { rr.1 with platform_commissions :=
          rr.1.platform_commissions ++ [("ESCROW_AGREEMENT", commission_amount)] }
        let db2 := { db1 with agreements := rows }
        (db2, .ok "Funds released")

/-- The party rows after recording one vote: the caller rows of the
agreement get has_confirmed_completion set to the submitted vote. -/
def voteUpdatedParties (db : DB) (aid uid : Nat) (confirm : Bool) : List EscrowParty :=
  db.parties.map (fun q =>
    if q.agreement_id == aid && q.user_id == uid then
      { q with has_confirmed_completion := confirm } else q)

/-- Embeds `vote_escrow_completion` (src/app/services/escrow_service.py):
records the vote on the caller party row, then releases exactly when no party
row of the agreement has has_confirmed_completion false.  Every exception is
wrapped in a 500 Vote failed response. -/
def vote_escrow_completion (db : DB) (proposal_id user_id : Nat) (confirm : Bool) :
    DB × Except Err String :=
  match db.proposals.find? (fun p => p.id == proposal_id) with
  | none => (db, .error (.http 500 "Vote failed"))
  | some proposal =>
    match db.parties.find? (fun q => q.agreement_id == proposal.agreement_id
        && q.user_id == user_id) with
    | none => (db, .error (.http 500 "Vote failed"))
    | some _ =>
      let rows := voteUpdatedParties db proposal.agreement_id user_id confirm
      let db1 := { db with parties := rows }
      let pending := db1.parties.filter (fun q =>
        q.agreement_id == proposal.agreement_id && q.has_confirmed_completion == false)
      if pending.isEmpty then
        let rr := release_escrow_funds db1 proposal.agreement_id user_id
        match rr.2 with
        | .error _ => (rr.1, .error (.http 500 "Vote failed"))
        | .ok s => (rr.1, .ok s)
      else (db1, .ok "Vote recorded. Waiting for others.")

/-- Concrete three-party escrow agreement: initiator 1 funded 10000 plus
commission, recipients 2 and 3 with shares 6000 and 4000; recipient 2 has
already confirmed, recipient 3 votes last. -/
def C5db : DB :=
  { wallets := fun u => if u = 1 then ⟨0, 10000⟩ else ⟨0, 0⟩
  , profiles := fun _ => none
  , transactions := []
  , foodOrders := []
  , foodOrderItems := []
  , laundryOrders := []
  , deliveryOrders := []
  , deliveries := []
  , productOrders := []
  , productOrderItems := []
  , disputes := []
  , agreements := [⟨40, 1, 10000, 1/10, 1000, "IN_PROGRESS"⟩]
  , parties := [⟨40, 1, "INITIATOR", 0, true⟩, ⟨40, 2, "RECIPIENT", 6000, true⟩,
      ⟨40, 3, "RECIPIENT", 4000, false⟩]
  , proposals := [⟨50, 40, 2⟩]
  , platform_commissions := []
  , pendingFood := fun _ => none
  , pendingDelivery := fun _ => none
  , pendingProduct := fun _ => none
  , nextId := 60
  , charges := ⟨17/20, 17/20, 17/20, 17/20⟩ }

/-- Substring search over character lists by structural recursion. -/
def listInfixOf (sub : List Char) : List Char → Bool
  | [] => sub.isPrefixOf []
  | c :: cs => sub.isPrefixOf (c :: cs) || listInfixOf sub cs

/-- Python substring membership `sub in s`. -/
def pyIn (sub s : String) : Bool := listInfixOf sub.data s.data

/-- The normalized order dict returned by the dispute helper `get_order`:
missing columns surface as none, exactly as dict.get does. -/
structure NormalizedOrder where
  id : Nat
  buyer_id : Option Nat
  seller_id : Option Nat
  status : String
  payment_status : String
  amount : Money
deriving Repr, DecidableEq

/-- Embeds `is_admin` (src/app/utils/dispute_helpers.py). -/
def is_admin (db : DB) (uid : Nat) : Bool :=
  match db.profiles uid with
  | none => false
  | some t => t == "ADMIN" || t == "MODERATOR" || t == "SUPER_ADMIN"

/-- Embeds `get_order` (src/app/utils/dispute_helpers.py): fetch from the
table selected by the order type and normalize.  Python truthiness of the
`or` fallbacks is embedded: an empty `order_status` falls back to the plain
status column; the delivery table carries no buyer or customer column so
those normalize to none.  An unknown order type raises ValueError. -/
def get_order (db : DB) (order_id : Nat) (order_type : String) :
    Except Err NormalizedOrder :=
  if order_type = "DELIVERY" then
    match db.deliveryOrders.find? (fun o => o.id == order_id) with
    | none => .error (.http 404 "DELIVERY order not found")
    | some o => .ok ⟨o.id, none, none,
        (if o.order_status ≠ "" then o.order_status else o.status),
        o.payment_status, o.grand_total⟩
  else if order_type = "PRODUCT" then
    match db.productOrders.find? (fun o => o.id == order_id) with
    | none => .error (.http 404 "PRODUCT order not found")
    | some o => .ok ⟨o.id, some o.buyer_id, some o.seller_id,
        (if o.order_status ≠ "" then o.order_status else o.status.getD ""),
        o.payment_status, o.grand_total⟩
  else if order_type = "FOOD" then
    match db.foodOrders.find? (fun o => o.id == order_id) with
    | none => .error (.http 404 "FOOD order not found")
    | some o => .ok ⟨o.id, some o.customer_id, some o.vendor_id,
        (if o.order_status ≠ "" then o.order_status else o.status.getD ""),
        o.payment_status, o.grand_total⟩
  else if order_type = "LAUNDRY" then
    match db.laundryOrders.find? (fun o => o.id == order_id) with
    | none => .error (.http 404 "LAUNDRY order not found")
    | some o => .ok ⟨o.id, some o.customer_id, some o.vendor_id,
        (if o.order_status ≠ "" then o.order_status else o.status.getD ""),
        o.payment_status, o.grand_total⟩
  else .error (.http 500 "Invalid order type")

/-- Embeds `update_order_status` (src/app/utils/dispute_helpers.py).  The
written column is computed exactly as in the source from the Python
substring test `"order_status" in table_name`: since no table name contains
the substring order_status, the update always writes the plain status
column, never the lifecycle column order_status. -/
def update_order_status (db : DB) (order_id : Nat) (order_type new_status : String) :
    DB × Except Err Unit :=
  let table_name := if order_type = "DELIVERY" then some "delivery_orders"
    else if order_type = "PRODUCT" then some "product_orders"
    else if order_type = "FOOD" then some "food_orders"
    else if order_type = "LAUNDRY" then some "laundry_orders"
    else none
  match table_name with
  | none => (db, .error (.http 500 "Invalid order type"))
  | some tn =>
    let f := if pyIn "order_status" tn then "order_status" else "status"
    if tn = "delivery_orders" then
      ({ db with deliveryOrders := db.deliveryOrders.map (fun o =>
        if o.id == order_id then
          (if f = "order_status" then { o with order_status := new_status }
           else { o with status := new_status }) else o) }, .ok ())
    else if tn = "product_orders" then
      ({ db with productOrders := db.productOrders.map (fun o =>
        if o.id == order_id then
          (if f = "order_status" then { o with order_status := new_status }
           else { o with status := some new_status }) else o) }, .ok ())
    else if tn = "food_orders" then
      ({ db with foodOrders := db.foodOrders.map (fun o =>
        if o.id == order_id then
          (if f = "order_status" then { o with order_status := new_status }
           else { o with status := some new_status }) else o) }, .ok ())
    else
      ({ db with laundryOrders := db.laundryOrders.map (fun o =>
        if o.id == order_id then
          (if f = "order_status" then { o with order_status := new_status }
           else { o with status := some new_status }) else o) }, .ok ())

/-- Embeds `refund_escrow` (src/app/utils/dispute_helpers.py): move the
amount from the buyer escrow to the buyer balance via two wallet calls. -/
def refund_escrow (db : DB) (buyer_id : Nat) (amount : Money) : DB × Except Err Unit :=
  let r1 := update_wallet_balance db buyer_id (-amount) "escrow_balance"
  match r1.2 with
  | .error e => (r1.1, .error e)
  | .ok _ =>
    let r2 := update_wallet_balance r1.1 buyer_id amount "balance"
    match r2.2 with
    | .error e => (r2.1, .error e)
    | .ok _ => (r2.1, .ok ())

/-- Embeds `release_escrow` (src/app/utils/dispute_helpers.py): move the
amount from the buyer escrow to the seller balance via two wallet calls. -/
def release_escrow (db : DB) (buyer_id seller_id : Nat) (amount : Money) :
    DB × Except Err Unit :=
  let r1 := update_wallet_balance db buyer_id (-amount) "escrow_balance"
  match r1.2 with
  | .error e => (r1.1, .error e)
  | .ok _ =>
    let r2 := update_wallet_balance r1.1 seller_id amount "balance"
    match r2.2 with
    | .error e => (r2.1, .error e)
    | .ok _ => (r2.1, .ok ())

/-- Embeds `resolve_dispute` (src/app/services/dispute_service.py): admin
gate, the OPEN/UNDER_REVIEW/ESCALATED gate, the dispute marked RESOLVED,
then the ledger outcome of the resolution.  `get_order` runs before the
ESCROW_AGREEMENT branch and raises ValueError for that type, so that branch
is unreachable; the function has no try/except, so errors propagate with the
mutations already applied, and COMPROMISE falls through to the success
return with no ledger action. -/
def resolve_dispute (db : DB) (dispute_id : Nat) (resolution : String) (admin_id : Nat) :
    DB × Except Err Unit :=
  if ¬(is_admin db admin_id = true) then
    (db, .error (.http 403 "Only admins can resolve disputes"))
  else
    match db.disputes.find? (fun d => d.id == dispute_id) with
    | none => (db, .error (.http 500 "dispute lookup failed"))
    | some d =>
      if ¬(d.status = "OPEN" ∨ d.status = "UNDER_REVIEW" ∨ d.status = "ESCALATED") then
        (db, .error (.http 400 "Dispute not open for resolution"))
      else
        let db1 := { db with disputes := db.disputes.map (fun x =>
          if x.id == dispute_id then
            { x with status := "RESOLVED", resolved_by_id := some admin_id } else x) }
        match get_order db1 d.order_id d.order_type with
        | .error e => (db1, .error e)
        | .ok order =>
          match db1.transactions.find? (fun t => t.order_id == some d.order_id) with
          | none => (db1, .error (.http 500 "transaction lookup failed"))
          | some tx =>
            let amount := tx.amount
            if resolution = "BUYER_FAVOR" then
              match tx.from_user_id with
              | none => (db1, .error (.http 500 "null payer"))
              | some payer =>
                let r1 := refund_escrow db1 payer amount
                match r1.2 with
                | .error e => (r1.1, .error e)
                | .ok _ =>
                  let r2 := update_order_status r1.1 order.id d.order_type "CANCELLED"
                  match r2.2 with
                  | .error e => (r2.1, .error e)
                  | .ok _ => (r2.1, .ok ())
            else if resolution = "SELLER_FAVOR" then
              match tx.from_user_id, tx.to_user_id with
              | some payer, some payee =>
                let r1 := release_escrow db1 payer payee amount
                match r1.2 with
                | .error e => (r1.1, .error e)
                | .ok _ =>
                  let r2 := update_order_status r1.1 order.id d.order_type "COMPLETED"
                  match r2.2 with
                  | .error e => (r2.1, .error e)
                  | .ok _ => (r2.1, .ok ())
              | _, _ => (db1, .error (.http 500 "null party"))
            else (db1, .ok ())

/-- Concrete datastore exercising dispute resolution: an ADMIN profile, an
OPEN FOOD dispute over order 5, the order READY with 5000 held in the
customer escrow and its HELD transaction row. -/
def C7db : DB :=
  { wallets := fun u => if u = 1 then ⟨0, 5000⟩ else ⟨0, 0⟩
  , profiles := fun u => if u = 99 then some "ADMIN" else none
  , transactions := [⟨7, "FOOD-AB12CD34EF56", 5000, some 1, some 2, some 5, "FOOD_ORDER", "HELD"⟩]
  , foodOrders := [⟨5, 1, 2, 4500, 500, 5000, "READY", none, "PAID", "HELD"⟩]
  , foodOrderItems := []
  , laundryOrders := []
  , deliveryOrders := []
  , deliveries := []
  , productOrders := []
  , productOrderItems := []
  , disputes := [⟨70, 5, "FOOD", 1, 2, "not delivered", "OPEN", none⟩]
  , agreements := []
  , parties := []
  , proposals := []
  , platform_commissions := []
  , pendingFood := fun _ => none
  , pendingDelivery := fun _ => none
  , pendingProduct := fun _ => none
  , nextId := 8
  , charges := ⟨17/20, 17/20, 17/20, 17/20⟩ }

theorem find_map_food (l : List FoodOrder) (oid : Nat) (f : FoodOrder → FoodOrder)
    (hf : ∀ o, (f o).id = o.id) :
    (l.map (fun o => if o.id == oid then f o else o)).find? (fun o => o.id == oid)
      = (l.find? (fun o => o.id == oid)).map f := by
  induction l with
  | nil => rfl
  | cons a l ih =>
    rw [List.map_cons, List.find?_cons, List.find?_cons]
    by_cases h : a.id = oid
    · have hb : (a.id == oid) = true := beq_iff_eq.mpr h
      rw [if_pos hb, hf, hb]; rfl
    · have hb : (a.id == oid) = false := by simp [h]
      rw [if_neg (by simp [h]), hb]
      exact ih

theorem setWallet_self (db : DB) (uid : Nat) (w : Wallet) :
    (setWallet db uid w).wallets uid = w := by
  simp [setWallet]

theorem setWallet_other (db : DB) (uid u : Nat) (w : Wallet) (h : u ≠ uid) :
    (setWallet db uid w).wallets u = db.wallets u := by
  simp [setWallet, h]

theorem update_wallet_balance_escrow (db : DB) (uid : Nat) (delta : Money)
    (h : ¬(db.wallets uid).escrow_balance + delta < 0) :
    update_wallet_balance db uid delta "escrow_balance"
      = (setWallet db uid
          (Wallet.mk (db.wallets uid).balance ((db.wallets uid).escrow_balance + delta)),
         .ok ()) := by
  unfold update_wallet_balance
  rw [if_neg (by decide), if_pos rfl, if_neg h]

theorem update_wallet_balance_bal (db : DB) (uid : Nat) (delta : Money)
    (h : ¬(db.wallets uid).balance + delta < 0) :
    update_wallet_balance db uid delta "balance"
      = (setWallet db uid
          (Wallet.mk ((db.wallets uid).balance + delta) (db.wallets uid).escrow_balance),
         .ok ()) := by
  unfold update_wallet_balance
  rw [if_pos rfl, if_neg h]

/-- C6: for a food order in status PENDING with payment_status PAID, a vendor
reject moves the full held amount from the customer escrow to the customer
balance, marks the transaction REFUNDED and the order CANCELLED, and leaves
the customer total holdings (balance plus escrow) unchanged. -/
theorem C6_vendor_reject_refunds
    (db : DB) (oid vid payer : Nat) (o : FoodOrder) (t : Txn)
    (ho : db.foodOrders.find? (fun x => x.id == oid) = some o)
    (hvendor : o.vendor_id = vid)
    (hpend : o.order_status = "PENDING")
    (hpaid : o.payment_status = "PAID")
    (ht : db.transactions.find? (fun x => x.order_id == some oid) = some t)
    (hfrom : t.from_user_id = some payer)
    (hfunds : t.amount ≤ (db.wallets payer).escrow_balance)
    (hbal : 0 ≤ (db.wallets payer).balance)
    (hamt : 0 ≤ t.amount) :
    (vendor_food_order_action db oid vid "reject").2 = .ok ("CANCELLED", "Order rejected.")
    ∧ ((vendor_food_order_action db oid vid "reject").1.wallets payer).escrow_balance
        = (db.wallets payer).escrow_balance - t.amount
    ∧ ((vendor_food_order_action db oid vid "reject").1.wallets payer).balance
        = (db.wallets payer).balance + t.amount
    ∧ ((vendor_food_order_action db oid vid "reject").1.wallets payer).balance
        + ((vendor_food_order_action db oid vid "reject").1.wallets payer).escrow_balance
        = (db.wallets payer).balance + (db.wallets payer).escrow_balance
    ∧ (∀ u, u ≠ payer → (vendor_food_order_action db oid vid "reject").1.wallets u = db.wallets u)
    ∧ (vendor_food_order_action db oid vid "reject").1.transactions
        = db.transactions.map (fun x => if x.id == t.id then { x with status := "REFUNDED" } else x)
    ∧ (vendor_food_order_action db oid vid "reject").1.foodOrders
        = db.foodOrders.map
            (fun x => if x.id == oid then { x with order_status := "CANCELLED" } else x) := by
  have h1 : ¬((db.wallets payer).escrow_balance + -t.amount < 0) := by
    push_neg
    linarith
  have hstep1 := update_wallet_balance_escrow db payer (-t.amount) h1
  have h2 : ¬(((setWallet db payer
      (Wallet.mk (db.wallets payer).balance
        ((db.wallets payer).escrow_balance + -t.amount))).wallets payer).balance
      + t.amount < 0) := by
    rw [setWallet_self]
    push_neg
    linarith
  have hstep2 := update_wallet_balance_bal _ payer t.amount h2
  rw [setWallet_self] at hstep2
  dsimp only at hstep2
  have hres : vendor_food_order_action db oid vid "reject"
      = (setFoodOrderStatus
          (setTxnStatus
            (setWallet
              (setWallet db payer
                (Wallet.mk (db.wallets payer).balance
                  ((db.wallets payer).escrow_balance + -t.amount)))
              payer
              (Wallet.mk ((db.wallets payer).balance + t.amount)
                ((db.wallets payer).escrow_balance + -t.amount)))
            t.id "REFUNDED")
          oid "CANCELLED", .ok ("CANCELLED", "Order rejected.")) := by
    unfold vendor_food_order_action
    rw [ho]
    dsimp only
    rw [if_neg (by simp [hvendor]), if_neg (by simp [hpend]), if_neg (by simp [hpaid]),
      if_neg (by decide), ht]
    dsimp only
    rw [hfrom]
    dsimp only
    rw [hstep1]
    dsimp only
    rw [hstep2]
  refine ⟨by rw [hres], ?_, ?_, ?_, ?_, ?_, ?_⟩
  · rw [hres]
    simp [setFoodOrderStatus, setTxnStatus, setWallet, sub_eq_add_neg]
  · rw [hres]
    simp [setFoodOrderStatus, setTxnStatus, setWallet]
  · rw [hres]
    simp only [setFoodOrderStatus, setTxnStatus]
    simp [setWallet]
    ring
  · intro u hu
    rw [hres]
    simp only [setFoodOrderStatus, setTxnStatus]
    rw [setWallet_other _ _ _ _ hu, setWallet_other _ _ _ _ hu]
  · rw [hres]
    simp [setFoodOrderStatus, setTxnStatus, setWallet]
  · rw [hres]
    simp [setFoodOrderStatus, setTxnStatus, setWallet]

theorem releaseApply_wallets_customer (db : DB) (cid vid : Nat) (amt : Money)
    (hne : vid ≠ cid) :
    (releaseApply db cid vid amt).wallets cid
      = Wallet.mk (db.wallets cid).balance ((db.wallets cid).escrow_balance - amt) := by
  simp [releaseApply, setWallet, Ne.symm hne]

theorem releaseApply_wallets_vendor (db : DB) (cid vid : Nat) (amt : Money)
    (hne : vid ≠ cid) :
    (releaseApply db cid vid amt).wallets vid
      = Wallet.mk ((db.wallets vid).balance + amt * db.charges.food_commission_rate)
          (db.wallets vid).escrow_balance := by
  simp [releaseApply, setWallet, hne]

theorem releaseApply_wallets_other (db : DB) (cid vid u : Nat) (amt : Money)
    (h1 : u ≠ cid) (h2 : u ≠ vid) :
    (releaseApply db cid vid amt).wallets u = db.wallets u := by
  simp [releaseApply, setWallet, h1, h2]

/-- C2: for a food order in READY status whose transaction is not RELEASED,
a confirm call by the customer debits the customer escrow by the full held
amount, credits the vendor balance by the commission-complement share, records
the platform commission on the remainder, marks the transaction RELEASED and
the order COMPLETED; a second confirm call on the same order fails with the
conflict error and mutates nothing. -/
theorem C2_customer_confirm_releases
    (db : DB) (oid cid : Nat) (o : FoodOrder) (t : Txn)
    (ho : db.foodOrders.find? (fun x => x.id == oid) = some o)
    (hcust : o.customer_id = cid)
    (hready : o.order_status = "READY")
    (ht : db.transactions.find? (fun x => x.order_id == some oid) = some t)
    (hnotrel : ¬(t.status = "RELEASED"))
    (hfunds : t.amount ≤ (db.wallets cid).escrow_balance)
    (hne : o.vendor_id ≠ cid) :
    (customer_confirm_food_order db oid cid).2 = .ok "COMPLETED"
    ∧ ((customer_confirm_food_order db oid cid).1.wallets cid).escrow_balance
        = (db.wallets cid).escrow_balance - t.amount
    ∧ ((customer_confirm_food_order db oid cid).1.wallets o.vendor_id).balance
        = (db.wallets o.vendor_id).balance + t.amount * db.charges.food_commission_rate
    ∧ (customer_confirm_food_order db oid cid).1.platform_commissions
        = db.platform_commissions
            ++ [("FOOD", t.amount * (1 - db.charges.food_commission_rate))]
    ∧ (customer_confirm_food_order db oid cid).1.transactions
        = db.transactions.map
            (fun x => if x.id == t.id then { x with status := "RELEASED" } else x)
    ∧ (customer_confirm_food_order db oid cid).1.foodOrders
        = db.foodOrders.map
            (fun x => if x.id == oid then { x with order_status := "COMPLETED" } else x)
    ∧ (customer_confirm_food_order (customer_confirm_food_order db oid cid).1 oid cid).1
        = (customer_confirm_food_order db oid cid).1
    ∧ (customer_confirm_food_order (customer_confirm_food_order db oid cid).1 oid cid).2
        = .error (.http 400 "Order not ready for confirmation yet") := by
  have hfr : ¬((db.wallets cid).escrow_balance - t.amount < 0) := by
    push_neg
    linarith
  have hrel : release_order_payment db cid o.vendor_id t.amount
      = (releaseApply db cid o.vendor_id t.amount, .ok ()) := by
    unfold release_order_payment
    rw [if_neg hfr]
  have hres : customer_confirm_food_order db oid cid
      = (setFoodOrderStatus
          (setTxnStatus (releaseApply db cid o.vendor_id t.amount) t.id "RELEASED")
          oid "COMPLETED", .ok "COMPLETED") := by
    unfold customer_confirm_food_order
    rw [ho]
    dsimp only
    rw [if_neg (by simp [hcust]), if_neg (by simp [hready]), ht]
    dsimp only
    rw [if_neg hnotrel, hrel]
  have ho2 : ((setFoodOrderStatus
      (setTxnStatus (releaseApply db cid o.vendor_id t.amount) t.id "RELEASED")
      oid "COMPLETED").foodOrders).find? (fun x => x.id == oid)
      = some { o with order_status := "COMPLETED" } := by
    show (db.foodOrders.map
      (fun x => if x.id == oid then { x with order_status := "COMPLETED" } else x)).find?
        (fun x => x.id == oid) = _
    rw [find_map_food db.foodOrders oid
      (fun x => { x with order_status := "COMPLETED" }) (fun _ => rfl), ho]
    rfl
  refine ⟨by rw [hres], ?_, ?_, by rw [hres]; rfl, by rw [hres]; rfl, by rw [hres]; rfl, ?_, ?_⟩
  · rw [hres]
    simp only [setFoodOrderStatus, setTxnStatus]
    rw [releaseApply_wallets_customer db cid o.vendor_id t.amount hne]
  · rw [hres]
    simp only [setFoodOrderStatus, setTxnStatus]
    rw [releaseApply_wallets_vendor db cid o.vendor_id t.amount hne]
  · rw [hres]
    dsimp only
    unfold customer_confirm_food_order
    rw [ho2]
    dsimp only
    rw [if_neg (by simp [hcust]), if_pos (by decide)]
  · rw [hres]
    dsimp only
    unfold customer_confirm_food_order
    rw [ho2]
    dsimp only
    rw [if_neg (by simp [hcust]), if_pos (by decide)]

/-- Witness for C6: the vendor reject of the concrete PENDING food order
refunds the full 5000 from escrow to balance. -/
theorem C6_vendor_reject_refunds_witness :
    (vendor_food_order_action C6db 5 2 "reject").2 = .ok ("CANCELLED", "Order rejected.")
    ∧ ((vendor_food_order_action C6db 5 2 "reject").1.wallets 1).escrow_balance = 0
    ∧ ((vendor_food_order_action C6db 5 2 "reject").1.wallets 1).balance = 5000 := by
  have h := C6_vendor_reject_refunds C6db 5 2 1
      ⟨5, 1, 2, 4500, 500, 5000, "PENDING", none, "PAID", "HELD"⟩
      ⟨7, "FOOD-AB12CD34EF56", 5000, some 1, some 2, some 5, "FOOD_ORDER", "HELD"⟩
      (by decide) (by decide) (by decide) (by decide) (by decide) (by decide)
      (by decide) (by decide) (by decide)
  refine ⟨h.1, ?_, ?_⟩
  · rw [h.2.1]
    norm_num [C6db]
  · rw [h.2.2.1]
    norm_num [C6db]

/-- Witness for C2: confirming the concrete READY order releases 5000 from
the customer escrow, pays the vendor 4250, records 750 commission, and the
second confirm call raises the conflict error. -/
theorem C2_customer_confirm_releases_witness :
    (customer_confirm_food_order C2db 5 1).2 = .ok "COMPLETED"
    ∧ ((customer_confirm_food_order C2db 5 1).1.wallets 1).escrow_balance = 0
    ∧ ((customer_confirm_food_order C2db 5 1).1.wallets 2).balance = 4250
    ∧ (customer_confirm_food_order C2db 5 1).1.platform_commissions = [("FOOD", 750)]
    ∧ (customer_confirm_food_order (customer_confirm_food_order C2db 5 1).1 5 1).2
        = .error (.http 400 "Order not ready for confirmation yet") := by
  have h := C2_customer_confirm_releases C2db 5 1
      ⟨5, 1, 2, 4500, 500, 5000, "READY", none, "PAID", "HELD"⟩
      ⟨7, "FOOD-AB12CD34EF56", 5000, some 1, some 2, some 5, "FOOD_ORDER", "HELD"⟩
      (by decide) (by decide) (by decide) (by decide) (by decide) (by decide) (by decide)
  refine ⟨h.1, ?_, ?_, ?_, h.2.2.2.2.2.2.2⟩
  · rw [h.2.1]
    norm_num [C2db]
  · rw [h.2.2.1]
    norm_num [C2db]
  · rw [h.2.2.2.1]
    norm_num [C2db]

theorem food_payment_success_run
    (db : DB) (tx_ref : String) (paid : Money) (flw : String) (pending : FoodPending)
    (hp : db.pendingFood ("pending_food_" ++ tx_ref) = some pending)
    (hfresh : db.transactions.any (fun x => x.tx_ref == tx_ref) = false)
    (hamt : paid = pending.grand_total)
    (hw : ¬((db.wallets pending.customer_id).escrow_balance + pending.grand_total < 0)) :
    process_successful_food_payment noFail tx_ref paid flw db
      = (foodSuccessState db tx_ref pending, .ok (.success db.nextId)) := by
  unfold process_successful_food_payment foodSuccessState
  dsimp only
  rw [hp]
  dsimp only
  rw [if_neg (by decide)]
  rw [if_neg (by simp [hfresh])]
  rw [if_neg (by simp [hamt])]
  rw [if_neg (by decide)]
  rw [if_neg (by decide)]
  rw [if_neg (by decide)]
  unfold update_wallet_balance
  dsimp only
  rw [if_neg (by decide), if_pos rfl, if_neg hw]
  dsimp only
  rw [if_neg (by decide)]
  rw [if_neg (by decide)]

theorem iterDeliver_fixed (signature secret_hash : String) (p : WebhookPayload) (s : DB)
    (h : deliverWebhook signature secret_hash p s = s) :
    ∀ n, iterDeliver signature secret_hash p n s = s := by
  intro n
  induction n with
  | zero => rfl
  | succ n ih =>
    show iterDeliver signature secret_hash p n (deliverWebhook signature secret_hash p s) = s
    rw [h]
    exact ih

/-- C1 (code bug): the already-processed half of the claim holds at the
route, but repeated deliveries of a fresh successful FOOD payload
materialize zero orders, not exactly one.  The route module cannot even
load, since its from-import names process_successful_laundry_payment and
payment_service never binds it; and the enqueue binds the Request to the
parameter named supabase, so the food job raises AttributeError at the
idempotency select on every attempt: after any number of sequential
deliveries the datastore is unchanged, with no food order, no transaction,
no escrow hold, and the intent still pending. -/
theorem C1_enqueued_job_never_materializes :
    payment_route_imports_ok = false
    ∧ flutterwave_webhook "sek" "sek" C1payload C1db
        = (C1db, .ok (.queued "FOOD-AAAA0000BBBB"))
    ∧ enqueued_food_job "FOOD-AAAA0000BBBB" C1payload.amount C1payload.flw_id C1db
        = (C1db, .error (.attributeError "table"))
    ∧ (∀ n : Nat, iterDeliver "sek" "sek" C1payload n C1db = C1db)
    ∧ C1db.foodOrders = []
    ∧ C1db.transactions = []
    ∧ C1db.pendingFood "pending_food_FOOD-AAAA0000BBBB" ≠ none
    ∧ flutterwave_webhook "sek" "sek" C1payload C1db2
        = (C1db2, .ok (.already_processed "FOOD-AAAA0000BBBB"))
    ∧ deliverWebhook "sek" "sek" C1payload C1db2 = C1db2 :=
  ⟨by decide, rfl, rfl, iterDeliver_fixed "sek" "sek" C1payload C1db rfl,
   rfl, rfl, by decide, rfl, rfl⟩

/-- C8: when the pending intent is present but the gateway-reported paid
amount differs from the staged quote, neither the food nor the delivery
materialization handler creates an Order row, inserts a Transaction row or
touches any wallet; both delete the pending intent. -/
theorem C8_amount_mismatch_safety
    (db : DB) (tx_ref : String) (paid : Money) (flw : String) :
    (∀ pending : FoodPending,
      db.pendingFood ("pending_food_" ++ tx_ref) = some pending →
      paid ≠ pending.grand_total →
      (process_successful_food_payment noFail tx_ref paid flw db).1
          = deletePendingFood db ("pending_food_" ++ tx_ref)
      ∧ (process_successful_food_payment noFail tx_ref paid flw db).1.foodOrders
          = db.foodOrders
      ∧ (process_successful_food_payment noFail tx_ref paid flw db).1.transactions
          = db.transactions
      ∧ (∀ u, (process_successful_food_payment noFail tx_ref paid flw db).1.wallets u
          = db.wallets u)
      ∧ (process_successful_food_payment noFail tx_ref paid flw db).1.pendingFood
          ("pending_food_" ++ tx_ref) = none)
    ∧ (∀ pending : DeliveryPending,
      db.pendingDelivery ("pending_delivery_" ++ tx_ref) = some pending →
      paid ≠ pending.delivery_fee →
      process_successful_delivery_payment tx_ref paid flw db
          = (deletePendingDelivery db ("pending_delivery_" ++ tx_ref), .ok ())
      ∧ (process_successful_delivery_payment tx_ref paid flw db).1.deliveryOrders
          = db.deliveryOrders
      ∧ (process_successful_delivery_payment tx_ref paid flw db).1.transactions
          = db.transactions
      ∧ (∀ u, (process_successful_delivery_payment tx_ref paid flw db).1.wallets u
          = db.wallets u)
      ∧ (process_successful_delivery_payment tx_ref paid flw db).1.pendingDelivery
          ("pending_delivery_" ++ tx_ref) = none) := by
  constructor
  · intro pending hp hne
    have hres : (process_successful_food_payment noFail tx_ref paid flw db).1
        = deletePendingFood db ("pending_food_" ++ tx_ref) := by
      unfold process_successful_food_payment
      dsimp only
      rw [hp]
      dsimp only
      rw [if_neg (by decide)]
      by_cases hidem : db.transactions.any (fun x => x.tx_ref == tx_ref) = true
      · rw [if_pos hidem]
      · rw [if_neg hidem, if_pos hne]
    refine ⟨hres, by rw [hres]; rfl, by rw [hres]; rfl, fun u => by rw [hres]; rfl, ?_⟩
    rw [hres]
    simp [deletePendingFood]
  · intro pending hp hne
    have hres : process_successful_delivery_payment tx_ref paid flw db
        = (deletePendingDelivery db ("pending_delivery_" ++ tx_ref), .ok ()) := by
      unfold process_successful_delivery_payment
      dsimp only
      rw [hp]
      dsimp only
      rw [if_pos hne]
    refine ⟨hres, by rw [hres]; rfl, by rw [hres]; rfl, fun u => by rw [hres]; rfl, ?_⟩
    rw [hres]
    simp [deletePendingDelivery]

/-- Witness for C8 at a paid amount of 4999 against quotes of 5000 and 700. -/
theorem C8_amount_mismatch_safety_witness :
    (process_successful_food_payment noFail "X" 4999 "f" C8db).1.foodOrders = []
    ∧ (process_successful_food_payment noFail "X" 4999 "f" C8db).1.transactions = []
    ∧ (process_successful_food_payment noFail "X" 4999 "f" C8db).1.pendingFood
        "pending_food_X" = none
    ∧ (process_successful_delivery_payment "X" 4999 "f" C8db).1.deliveryOrders = []
    ∧ (process_successful_delivery_payment "X" 4999 "f" C8db).1.transactions = []
    ∧ (process_successful_delivery_payment "X" 4999 "f" C8db).1.pendingDelivery
        "pending_delivery_X" = none := by
  have h := C8_amount_mismatch_safety C8db "X" 4999 "f"
  have hf := h.1 ⟨5000, 1, 2, 4500, 500, "PICKUP", []⟩ (by decide) (by decide)
  have hd := h.2 ⟨700, 3, "080", "a", "b", "BIKE"⟩ (by decide) (by decide)
  exact ⟨hf.2.1, hf.2.2.1, hf.2.2.2.2, hd.2.1, hd.2.2.1, hd.2.2.2.2⟩

/-- Counterexample to C8 as quantified over every materialization handler:
the product handler, with its staged intent present (grand_total 3000) and
a mismatched paid amount of 2999, raises NameError at the unbound name
supabase in its idempotency check, before the amount comparison ever runs,
and the pending intent is not deleted: the returned state still carries it,
falsifying the discard clause of the claim. -/
theorem C8_counterexample :
    C10db.pendingProduct "pending_product_PRODUCT-7"
        = some ⟨3000, 4, 5, 6, 1, 2800, 200, "PICKUP", "addr", ""⟩
    ∧ (2999 : Money) ≠ 3000
    ∧ (process_successful_product_payment "PRODUCT-7" 2999 "f" C10db).2
        = .error (.nameError "supabase")
    ∧ (process_successful_product_payment "PRODUCT-7" 2999 "f" C10db).1.pendingProduct
        "pending_product_PRODUCT-7" ≠ none :=
  ⟨by decide, by norm_num, rfl, by decide⟩

/-- C9 (amended): if the idempotency select does not raise, then any
exception raised by the later materialization steps (all inside the try
block) reaches the except handler, which deletes the pending intent before
the exception propagates. -/
theorem C9_try_block_failure_deletes_intent
    (db : DB) (fails : FoodStep → Bool) (tx_ref : String) (paid : Money) (flw : String)
    (hidem : fails FoodStep.idemCheck = false)
    (hp : db.pendingFood ("pending_food_" ++ tx_ref) ≠ none)
    (e : Err)
    (herr : (process_successful_food_payment fails tx_ref paid flw db).2 = .error e) :
    (process_successful_food_payment fails tx_ref paid flw db).1.pendingFood
      ("pending_food_" ++ tx_ref) = none := by
  cases hm : db.pendingFood ("pending_food_" ++ tx_ref) with
  | none => exact absurd hm hp
  | some pending =>
    unfold process_successful_food_payment at herr ⊢
    dsimp only at herr ⊢
    rw [hm] at herr ⊢
    dsimp only at herr ⊢
    rw [if_neg (by simp [hidem])] at herr ⊢
    by_cases h2 : db.transactions.any (fun x => x.tx_ref == tx_ref) = true
    · rw [if_pos h2] at herr
      simp at herr
    · rw [if_neg h2] at herr ⊢
      by_cases h3 : paid ≠ pending.grand_total
      · rw [if_pos h3] at herr
        simp at herr
      · rw [if_neg h3] at herr ⊢
        by_cases h4 : fails FoodStep.insertOrder = true
        · rw [if_pos h4]
          simp [deletePendingFood]
        · rw [if_neg h4] at herr ⊢
          by_cases h5 : fails FoodStep.insertItems = true
          · rw [if_pos h5]
            simp [deletePendingFood]
          · rw [if_neg h5] at herr ⊢
            by_cases h6 : fails FoodStep.holdEscrow = true
            · rw [if_pos h6]
              simp [deletePendingFood]
            · rw [if_neg h6] at herr ⊢
              unfold update_wallet_balance at herr ⊢
              dsimp only at herr ⊢
              rw [if_neg (by decide), if_pos rfl] at herr ⊢
              by_cases h9 : (db.wallets pending.customer_id).escrow_balance
                  + pending.grand_total < 0
              · rw [if_pos h9] at herr ⊢
                dsimp only at herr ⊢
                simp [deletePendingFood]
              · rw [if_neg h9] at herr ⊢
                dsimp only at herr ⊢
                by_cases h7 : fails FoodStep.insertTxn = true
                · rw [if_pos h7]
                  simp [deletePendingFood]
                · rw [if_neg h7] at herr ⊢
                  by_cases h8 : fails FoodStep.auditLog = true
                  · rw [if_pos h8]
                    simp [deletePendingFood]
                  · rw [if_neg h8] at herr
                    simp at herr

/-- C9 counterexample: the pending intent is present, the idempotency select
raises, the handler propagates the exception, and the pending intent is still
present afterwards: an exception raised while processing a present intent
does not always delete the intent before propagating, because the
idempotency select runs before the try block. -/
theorem C9_counterexample :
    C9db.pendingFood "pending_food_FOOD-E" = some ⟨5000, 1, 2, 4500, 500, "PICKUP", []⟩
    ∧ (process_successful_food_payment C9failIdem "FOOD-E" 5000 "f" C9db).2
        = .error (.http 500 "transactions select failed")
    ∧ (process_successful_food_payment C9failIdem "FOOD-E" 5000 "f" C9db).1.pendingFood
        "pending_food_FOOD-E" = some ⟨5000, 1, 2, 4500, 500, "PICKUP", []⟩ := by
  refine ⟨by decide, by decide, by decide⟩

/-- Witness for the amended C9: with the food_orders insert raising inside
the try block, the except handler deletes the pending intent before the
exception propagates. -/
theorem C9_try_block_failure_deletes_intent_witness :
    (process_successful_food_payment C9failInsert "FOOD-E" 5000 "f" C9db).1.pendingFood
      "pending_food_FOOD-E" = none :=
  C9_try_block_failure_deletes_intent C9db C9failInsert "FOOD-E" 5000 "f" (by decide)
    (by decide) (.http 500 "insert food_orders failed") (by decide)

/-- C10: whenever a pending_product intent is present,
process_successful_product_payment raises NameError at the idempotency check
(the module never binds the name supabase), before any product_orders insert,
transactions insert or wallet mutation, and without deleting the pending
intent; the later order insert would likewise reference the unbound name
grand_total. -/
theorem C10_product_handler_name_error
    (db : DB) (tx_ref : String) (paid : Money) (flw : String) (pending : ProductPending)
    (hp : db.pendingProduct ("pending_product_" ++ tx_ref) = some pending) :
    process_successful_product_payment tx_ref paid flw db
        = (db, .error (.nameError "supabase"))
    ∧ productNameInScope "supabase" = false
    ∧ productNameInScope "grand_total" = false
    ∧ (process_successful_product_payment tx_ref paid flw db).1.productOrders
        = db.productOrders
    ∧ (process_successful_product_payment tx_ref paid flw db).1.transactions
        = db.transactions
    ∧ (∀ u, (process_successful_product_payment tx_ref paid flw db).1.wallets u
        = db.wallets u)
    ∧ (process_successful_product_payment tx_ref paid flw db).1.pendingProduct
        ("pending_product_" ++ tx_ref) = some pending := by
  have hres : process_successful_product_payment tx_ref paid flw db
      = (db, .error (.nameError "supabase")) := by
    unfold process_successful_product_payment
    dsimp only
    rw [hp]
    dsimp only
    rw [if_neg (by decide)]
  exact ⟨hres, by decide, by decide, by rw [hres], by rw [hres],
    fun u => by rw [hres], by rw [hres]; exact hp⟩

/-- Witness for C10 at a concrete staged product intent. -/
theorem C10_product_handler_name_error_witness :
    process_successful_product_payment "PRODUCT-7" 3000 "f" C10db
        = (C10db, .error (.nameError "supabase"))
    ∧ (process_successful_product_payment "PRODUCT-7" 3000 "f" C10db).1.pendingProduct
        "pending_product_PRODUCT-7"
        = some ⟨3000, 4, 5, 6, 1, 2800, 200, "PICKUP", "addr", ""⟩ := by
  have h := C10_product_handler_name_error C10db "PRODUCT-7" 3000 "f"
    ⟨3000, 4, 5, 6, 1, 2800, 200, "PICKUP", "addr", ""⟩ (by decide)
  exact ⟨h.1, h.2.2.2.2.2.2⟩

/-- C4: for an ASSIGNED delivery order whose assigned rider calls pickup, the
dispatch escrow is credited by the full delivery fee, the sender wallet is
untouched, the order status becomes IN_TRANSIT and the order transaction
becomes TRANSFERRED_TO_DISPATCH. -/
theorem C4_rider_pickup_credits_dispatch
    (db : DB) (oid rid did : Nat) (o : DeliveryOrder)
    (ho : db.deliveryOrders.find? (fun x => x.id == oid) = some o)
    (hrid : o.rider_id = some rid)
    (hst : o.status = "ASSIGNED")
    (hdis : o.dispatch_id = some did)
    (hne : o.sender_id ≠ did) :
    (rider_picked_up db oid rid).2 = .ok ()
    ∧ ((rider_picked_up db oid rid).1.wallets did).escrow_balance
        = (db.wallets did).escrow_balance + o.delivery_fee
    ∧ ((rider_picked_up db oid rid).1.wallets did).balance = (db.wallets did).balance
    ∧ (rider_picked_up db oid rid).1.wallets o.sender_id = db.wallets o.sender_id
    ∧ (rider_picked_up db oid rid).1.transactions
        = db.transactions.map (fun t => if t.order_id == some oid then
            { t with status := "TRANSFERRED_TO_DISPATCH" } else t)
    ∧ (rider_picked_up db oid rid).1.deliveryOrders
        = db.deliveryOrders.map (fun x => if x.id == oid then
            { x with status := "IN_TRANSIT" } else x) := by
  have hres : rider_picked_up db oid rid
      = (setDeliveryOrderStatus
          { setWallet db did
              (Wallet.mk (db.wallets did).balance
                ((db.wallets did).escrow_balance + o.delivery_fee)) with
            transactions := db.transactions.map (fun t => if t.order_id == some oid then
              { t with status := "TRANSFERRED_TO_DISPATCH" } else t) }
          oid "IN_TRANSIT", .ok ()) := by
    unfold rider_picked_up credit_dispatch_escrow_on_pickup
    rw [ho]
    dsimp only
    rw [if_neg (by simp [hrid]), if_neg (by simp [hst]), hdis]
    dsimp only
    rw [if_pos rfl]
    rfl
  refine ⟨by rw [hres], ?_, ?_, ?_, by rw [hres]; rfl, by rw [hres]; rfl⟩
  · rw [hres]
    simp [setDeliveryOrderStatus, setWallet]
  · rw [hres]
    simp [setDeliveryOrderStatus, setWallet]
  · rw [hres]
    simp [setDeliveryOrderStatus, setWallet, hne]

/-- Witness for C4: rider 7 picks up order 20; the dispatch (user 9) escrow
is credited the 700 fee, the sender (user 3) wallet is untouched, the order
goes IN_TRANSIT and the transaction goes TRANSFERRED_TO_DISPATCH. -/
theorem C4_rider_pickup_credits_dispatch_witness :
    (rider_picked_up C4db 20 7).2 = .ok ()
    ∧ ((rider_picked_up C4db 20 7).1.wallets 9).escrow_balance = 700
    ∧ (rider_picked_up C4db 20 7).1.wallets 3 = ⟨100, 700⟩
    ∧ (rider_picked_up C4db 20 7).1.transactions
        = [⟨5, "DEL-X1", 700, some 3, none, some 20, "DELIVERY_FEE",
            "TRANSFERRED_TO_DISPATCH"⟩]
    ∧ (rider_picked_up C4db 20 7).1.deliveryOrders
        = [DeliveryOrder.mk 20 3 (some 7) (some 9) 700 700
            "PAID_NEEDS_RIDER" "IN_TRANSIT" "PAID" "HELD" none none] := by
  have h := C4_rider_pickup_credits_dispatch C4db 20 7 9
    (DeliveryOrder.mk 20 3 (some 7) (some 9) 700 700
      "PAID_NEEDS_RIDER" "ASSIGNED" "PAID" "HELD" none none)
    (by decide) (by decide) (by decide) (by decide) (by decide)
  refine ⟨h.1, ?_, h.2.2.2.1, ?_, ?_⟩
  · rw [h.2.1]
    norm_num [C4db]
  · rw [h.2.2.2.2.1]
    rfl
  · rw [h.2.2.2.2.2]
    rfl

/-- C3 (code bug): the sender cancels the PAID_NEEDS_RIDER order; the code
marks the order CANCELLED and answers refunded with the message Full refund
processed, yet performs no wallet call whatsoever: the sender escrow still
holds the full 700 fee and no balance moved, no transaction row changed. -/
theorem C3_cancel_reports_refund_but_moves_no_money :
    (cancel_delivery C3db 20 3 "USER" "no longer needed").2
        = .ok ⟨"CANCELLED", true, "Delivery cancelled. Full refund processed."⟩
    ∧ (cancel_delivery C3db 20 3 "USER" "no longer needed").1.wallets = C3db.wallets
    ∧ (cancel_delivery C3db 20 3 "USER" "no longer needed").1.wallets 3 = ⟨100, 700⟩
    ∧ (cancel_delivery C3db 20 3 "USER" "no longer needed").1.transactions
        = C3db.transactions
    ∧ (cancel_delivery C3db 20 3 "USER" "no longer needed").1.platform_commissions = []
    ∧ (cancel_delivery C3db 20 3 "USER" "no longer needed").1.deliveryOrders
        = [DeliveryOrder.mk 20 3 (some 7) (some 9) 700 700
            "PAID_NEEDS_RIDER" "CANCELLED" "PAID" "HELD" (some "SENDER")
            (some "no longer needed")] := by
  exact ⟨rfl, rfl, rfl, rfl, rfl, rfl⟩

theorem release_transfers_ok
    (recipients : List EscrowParty) (db : DB) (initiator : Nat)
    (hdistinct : recipients.Pairwise (fun a b => a.user_id ≠ b.user_id))
    (hnotinit : ∀ r ∈ recipients, r.user_id ≠ initiator)
    (hshare : ∀ r ∈ recipients, 0 ≤ r.share_amount)
    (hbal : ∀ r ∈ recipients, 0 ≤ (db.wallets r.user_id).balance)
    (hesc : (recipients.map (fun r => r.share_amount)).sum
        ≤ (db.wallets initiator).escrow_balance) :
    (release_transfers db initiator recipients).2 = .ok ()
    ∧ ((release_transfers db initiator recipients).1.wallets initiator).escrow_balance
        = (db.wallets initiator).escrow_balance
          - (recipients.map (fun r => r.share_amount)).sum
    ∧ ((release_transfers db initiator recipients).1.wallets initiator).balance
        = (db.wallets initiator).balance
    ∧ (∀ r ∈ recipients, (release_transfers db initiator recipients).1.wallets r.user_id
        = ⟨(db.wallets r.user_id).balance + r.share_amount,
           (db.wallets r.user_id).escrow_balance⟩)
    ∧ (∀ u, u ≠ initiator → (∀ r ∈ recipients, r.user_id ≠ u) →
        (release_transfers db initiator recipients).1.wallets u = db.wallets u)
    ∧ (release_transfers db initiator recipients).1.transactions = db.transactions
    ∧ (release_transfers db initiator recipients).1.platform_commissions
        = db.platform_commissions
    ∧ (release_transfers db initiator recipients).1.agreements = db.agreements
    ∧ (release_transfers db initiator recipients).1.parties = db.parties := by
  induction recipients generalizing db with
  | nil =>
    refine ⟨rfl, by simp [release_transfers], rfl, by simp, fun u _ _ => rfl,
      rfl, rfl, rfl, rfl⟩
  | cons r rest ih =>
    obtain ⟨hhead, htail⟩ := List.pairwise_cons.mp hdistinct
    have hru_ne : r.user_id ≠ initiator := hnotinit r (by simp)
    have hshr : 0 ≤ r.share_amount := hshare r (by simp)
    have hsumrest : 0 ≤ (rest.map (fun x => x.share_amount)).sum := by
      apply List.sum_nonneg
      intro x hx
      simp only [List.mem_map] at hx
      obtain ⟨y, hy, hxy⟩ := hx
      rw [← hxy]
      exact hshare y (by simp [hy])
    have hesc0 : r.share_amount + (rest.map (fun x => x.share_amount)).sum
        ≤ (db.wallets initiator).escrow_balance := by
      simpa using hesc
    have hesc1 : ¬((db.wallets initiator).escrow_balance + -(r.share_amount) < 0) := by
      push_neg
      linarith
    have hstep1 := update_wallet_balance_escrow db initiator (-(r.share_amount)) hesc1
    have hbal1 : ¬(((setWallet db initiator
        (Wallet.mk (db.wallets initiator).balance
          ((db.wallets initiator).escrow_balance + -(r.share_amount)))).wallets
            r.user_id).balance + r.share_amount < 0) := by
      rw [setWallet_other _ _ _ _ hru_ne]
      push_neg
      have := hbal r (by simp)
      linarith
    have hstep2 := update_wallet_balance_bal _ r.user_id r.share_amount hbal1
    rw [setWallet_other _ _ _ _ hru_ne] at hstep2
    have hone : release_transfers db initiator (r :: rest)
        = release_transfers
            (setWallet
              (setWallet db initiator
                (Wallet.mk (db.wallets initiator).balance
                  ((db.wallets initiator).escrow_balance + -(r.share_amount))))
              r.user_id
              (Wallet.mk ((db.wallets r.user_id).balance + r.share_amount)
                (db.wallets r.user_id).escrow_balance))
            initiator rest := by
      rw [release_transfers]
      rw [hstep1]
      dsimp only
      rw [hstep2]
    have hw_init : ((setWallet
        (setWallet db initiator
          (Wallet.mk (db.wallets initiator).balance
            ((db.wallets initiator).escrow_balance + -(r.share_amount))))
        r.user_id
        (Wallet.mk ((db.wallets r.user_id).balance + r.share_amount)
          (db.wallets r.user_id).escrow_balance)).wallets initiator)
        = Wallet.mk (db.wallets initiator).balance
            ((db.wallets initiator).escrow_balance + -(r.share_amount)) := by
      rw [setWallet_other _ _ _ _ (Ne.symm hru_ne), setWallet_self]
    have hw_r : ((setWallet
        (setWallet db initiator
          (Wallet.mk (db.wallets initiator).balance
            ((db.wallets initiator).escrow_balance + -(r.share_amount))))
        r.user_id
        (Wallet.mk ((db.wallets r.user_id).balance + r.share_amount)
          (db.wallets r.user_id).escrow_balance)).wallets r.user_id)
        = Wallet.mk ((db.wallets r.user_id).balance + r.share_amount)
            (db.wallets r.user_id).escrow_balance := setWallet_self _ _ _
    have hw_other : ∀ u, u ≠ initiator → u ≠ r.user_id →
        ((setWallet
          (setWallet db initiator
            (Wallet.mk (db.wallets initiator).balance
              ((db.wallets initiator).escrow_balance + -(r.share_amount))))
          r.user_id
          (Wallet.mk ((db.wallets r.user_id).balance + r.share_amount)
            (db.wallets r.user_id).escrow_balance)).wallets u) = db.wallets u := by
      intro u hu1 hu2
      rw [setWallet_other _ _ _ _ hu2, setWallet_other _ _ _ _ hu1]
    have ihh := ih
      (setWallet
        (setWallet db initiator
          (Wallet.mk (db.wallets initiator).balance
            ((db.wallets initiator).escrow_balance + -(r.share_amount))))
        r.user_id
        (Wallet.mk ((db.wallets r.user_id).balance + r.share_amount)
          (db.wallets r.user_id).escrow_balance))
      htail
      (fun x hx => hnotinit x (by simp [hx]))
      (fun x hx => hshare x (by simp [hx]))
      (fun x hx => by
        rw [hw_other x.user_id (hnotinit x (by simp [hx])) (Ne.symm (hhead x hx))]
        exact hbal x (by simp [hx]))
      (by
        rw [hw_init]
        dsimp only
        linarith)
    refine ⟨?_, ?_, ?_, ?_, ?_, ?_, ?_, ?_, ?_⟩
    · rw [hone]; exact ihh.1
    · rw [hone, ihh.2.1, hw_init]
      dsimp only
      simp only [List.map_cons, List.sum_cons]
      ring
    · rw [hone, ihh.2.2.1, hw_init]
    · intro x hx
      rcases List.mem_cons.mp hx with hx1 | hx2
      · subst hx1
        rw [hone,
          ihh.2.2.2.2.1 x.user_id (hnotinit x (by simp))
            (fun y hy => Ne.symm (hhead y hy)), hw_r]
      · rw [hone, ihh.2.2.2.1 x hx2,
          hw_other x.user_id (hnotinit x (by simp [hx2])) (Ne.symm (hhead x hx2))]
    · intro u hu1 hu2
      rw [hone, ihh.2.2.2.2.1 u hu1 (fun y hy => hu2 y (by simp [hy])),
        hw_other u hu1 (Ne.symm (hu2 r (by simp)))]
    · rw [hone]; exact ihh.2.2.2.2.2.1
    · rw [hone]; exact ihh.2.2.2.2.2.2.1
    · rw [hone]; exact ihh.2.2.2.2.2.2.2.1
    · rw [hone]; exact ihh.2.2.2.2.2.2.2.2

theorem release_escrow_funds_ok
    (db : DB) (aid uid : Nat) (ag : EscrowAgreement)
    (hag : db.agreements.find? (fun a => a.id == aid) = some ag)
    (hst : ag.status = "IN_PROGRESS")
    (hdistinct : (db.parties.filter (fun q => q.agreement_id == aid
        && q.role == "RECIPIENT")).Pairwise (fun a b => a.user_id ≠ b.user_id))
    (hnotinit : ∀ r ∈ db.parties.filter (fun q => q.agreement_id == aid
        && q.role == "RECIPIENT"), r.user_id ≠ ag.initiator_id)
    (hshare : ∀ r ∈ db.parties.filter (fun q => q.agreement_id == aid
        && q.role == "RECIPIENT"), 0 ≤ r.share_amount)
    (hbal : ∀ r ∈ db.parties.filter (fun q => q.agreement_id == aid
        && q.role == "RECIPIENT"), 0 ≤ (db.wallets r.user_id).balance)
    (hesc : ((db.parties.filter (fun q => q.agreement_id == aid
        && q.role == "RECIPIENT")).map (fun r => r.share_amount)).sum
        ≤ (db.wallets ag.initiator_id).escrow_balance) :
    (release_escrow_funds db aid uid).2 = .ok "Funds released"
    ∧ ((release_escrow_funds db aid uid).1.wallets ag.initiator_id).escrow_balance
        = (db.wallets ag.initiator_id).escrow_balance
          - ((db.parties.filter (fun q => q.agreement_id == aid
              && q.role == "RECIPIENT")).map (fun r => r.share_amount)).sum
    ∧ (∀ r ∈ db.parties.filter (fun q => q.agreement_id == aid
        && q.role == "RECIPIENT"),
        (release_escrow_funds db aid uid).1.wallets r.user_id
          = ⟨(db.wallets r.user_id).balance + r.share_amount,
             (db.wallets r.user_id).escrow_balance⟩)
    ∧ (∀ u, u ≠ ag.initiator_id →
        (∀ r ∈ db.parties.filter (fun q => q.agreement_id == aid
          && q.role == "RECIPIENT"), r.user_id ≠ u) →
        (release_escrow_funds db aid uid).1.wallets u = db.wallets u)
    ∧ (release_escrow_funds db aid uid).1.platform_commissions
        = db.platform_commissions
          ++ [("ESCROW_AGREEMENT", ag.amount * ag.commission_rate)]
    ∧ (release_escrow_funds db aid uid).1.agreements
        = db.agreements.map (fun a =>
            if a.id == aid then { a with status := "COMPLETED" } else a)
    ∧ (release_escrow_funds db aid uid).1.transactions = db.transactions
    ∧ (release_escrow_funds db aid uid).1.parties = db.parties := by
  have hrt := release_transfers_ok
    (db.parties.filter (fun q => q.agreement_id == aid && q.role == "RECIPIENT"))
    db ag.initiator_id hdistinct hnotinit hshare hbal hesc
  have hres : release_escrow_funds db aid uid
      = ({ { (release_transfers db ag.initiator_id
              (db.parties.filter (fun q => q.agreement_id == aid
                && q.role == "RECIPIENT"))).1 with
            platform_commissions :=
              (release_transfers db ag.initiator_id
                (db.parties.filter (fun q => q.agreement_id == aid
                  && q.role == "RECIPIENT"))).1.platform_commissions
                ++ [("ESCROW_AGREEMENT", ag.amount * ag.commission_rate)] } with
          agreements :=
            (release_transfers db ag.initiator_id
              (db.parties.filter (fun q => q.agreement_id == aid
                && q.role == "RECIPIENT"))).1.agreements.map (fun a =>
                  if a.id == aid then { a with status := "COMPLETED" } else a) },
         .ok "Funds released") := by
    unfold release_escrow_funds
    rw [hag]
    dsimp only
    rw [if_neg (by simp [hst])]
    rw [hrt.1]
  refine ⟨by rw [hres], ?_, ?_, ?_, ?_, ?_, ?_, ?_⟩
  · rw [hres]
    exact hrt.2.1
  · intro r hr
    rw [hres]
    exact hrt.2.2.2.1 r hr
  · intro u hu1 hu2
    rw [hres]
    exact hrt.2.2.2.2.1 u hu1 hu2
  · rw [hres]
    dsimp only
    rw [hrt.2.2.2.2.2.2.1]
  · rw [hres]
    dsimp only
    rw [hrt.2.2.2.2.2.2.2.1]
  · rw [hres]
    exact hrt.2.2.2.2.2.1
  · rw [hres]
    exact hrt.2.2.2.2.2.2.2.2

/-- C5: in an N-party escrow agreement, the vote handler releases the funds
if and only if, after recording the vote, every party row of the agreement
has confirmed.  With any unconfirmed party left, the vote handler records the
vote, answers Waiting for others and mutates no wallet and no agreement row;
with all parties confirmed it debits each recipient share from the initiator
escrow, credits each recipient balance, records the commission and marks the
agreement COMPLETED. -/
theorem C5_unanimous_release
    (db : DB) (pid uid : Nat) (confirm : Bool) (prop : EscrowProposal)
    (ag : EscrowAgreement) (q0 : EscrowParty)
    (hprop : db.proposals.find? (fun p => p.id == pid) = some prop)
    (hq0 : db.parties.find? (fun q => q.agreement_id == prop.agreement_id
        && q.user_id == uid) = some q0) :
    (((voteUpdatedParties db prop.agreement_id uid confirm).filter
        (fun q => q.agreement_id == prop.agreement_id
          && q.has_confirmed_completion == false)).isEmpty = true
      ↔ ∀ q ∈ voteUpdatedParties db prop.agreement_id uid confirm,
          q.agreement_id = prop.agreement_id → q.has_confirmed_completion = true)
    ∧ (((voteUpdatedParties db prop.agreement_id uid confirm).filter
        (fun q => q.agreement_id == prop.agreement_id
          && q.has_confirmed_completion == false)).isEmpty = false →
       vote_escrow_completion db pid uid confirm
         = ({ db with parties := voteUpdatedParties db prop.agreement_id uid confirm },
            .ok "Vote recorded. Waiting for others."))
    ∧ (((voteUpdatedParties db prop.agreement_id uid confirm).filter
        (fun q => q.agreement_id == prop.agreement_id
          && q.has_confirmed_completion == false)).isEmpty = true →
       db.agreements.find? (fun a => a.id == prop.agreement_id) = some ag →
       ag.status = "IN_PROGRESS" →
       ((voteUpdatedParties db prop.agreement_id uid confirm).filter
          (fun q => q.agreement_id == prop.agreement_id
            && q.role == "RECIPIENT")).Pairwise (fun a b => a.user_id ≠ b.user_id) →
       (∀ r ∈ (voteUpdatedParties db prop.agreement_id uid confirm).filter
          (fun q => q.agreement_id == prop.agreement_id && q.role == "RECIPIENT"),
          r.user_id ≠ ag.initiator_id) →
       (∀ r ∈ (voteUpdatedParties db prop.agreement_id uid confirm).filter
          (fun q => q.agreement_id == prop.agreement_id && q.role == "RECIPIENT"),
          0 ≤ r.share_amount) →
       (∀ r ∈ (voteUpdatedParties db prop.agreement_id uid confirm).filter
          (fun q => q.agreement_id == prop.agreement_id && q.role == "RECIPIENT"),
          0 ≤ (db.wallets r.user_id).balance) →
       (((voteUpdatedParties db prop.agreement_id uid confirm).filter
          (fun q => q.agreement_id == prop.agreement_id
            && q.role == "RECIPIENT")).map (fun r => r.share_amount)).sum
          ≤ (db.wallets ag.initiator_id).escrow_balance →
       (vote_escrow_completion db pid uid confirm).2 = .ok "Funds released"
       ∧ ((vote_escrow_completion db pid uid confirm).1.wallets ag.initiator_id).escrow_balance
           = (db.wallets ag.initiator_id).escrow_balance
             - (((voteUpdatedParties db prop.agreement_id uid confirm).filter
                (fun q => q.agreement_id == prop.agreement_id
                  && q.role == "RECIPIENT")).map (fun r => r.share_amount)).sum
       ∧ (∀ r ∈ (voteUpdatedParties db prop.agreement_id uid confirm).filter
            (fun q => q.agreement_id == prop.agreement_id && q.role == "RECIPIENT"),
            (vote_escrow_completion db pid uid confirm).1.wallets r.user_id
              = ⟨(db.wallets r.user_id).balance + r.share_amount,
                 (db.wallets r.user_id).escrow_balance⟩)
       ∧ (vote_escrow_completion db pid uid confirm).1.platform_commissions
           = db.platform_commissions
             ++ [("ESCROW_AGREEMENT", ag.amount * ag.commission_rate)]
       ∧ (vote_escrow_completion db pid uid confirm).1.agreements
           = db.agreements.map (fun a =>
               if a.id == prop.agreement_id then { a with status := "COMPLETED" } else a)
       ∧ (vote_escrow_completion db pid uid confirm).1.parties
           = voteUpdatedParties db prop.agreement_id uid confirm) := by
  refine ⟨?_, ?_, ?_⟩
  · rw [List.isEmpty_iff, List.filter_eq_nil_iff]
    constructor
    · intro h q hq hqa
      have := h q hq
      simp only [Bool.and_eq_true, beq_iff_eq, not_and] at this
      have := this hqa
      simpa using this
    · intro h q hq
      simp only [Bool.and_eq_true, beq_iff_eq, not_and]
      intro hqa
      simp [h q hq hqa]
  · intro hsome
    unfold vote_escrow_completion
    rw [hprop]
    dsimp only
    rw [hq0]
    dsimp only
    rw [if_neg (by rw [hsome]; decide)]
  · intro hall hag hst hdist hnotinit hshare hbal hesc
    have hrel := release_escrow_funds_ok
      ({ db with parties := voteUpdatedParties db prop.agreement_id uid confirm })
      prop.agreement_id uid ag hag hst hdist hnotinit hshare hbal hesc
    have hres : vote_escrow_completion db pid uid confirm
        = ((release_escrow_funds
            ({ db with parties := voteUpdatedParties db prop.agreement_id uid confirm })
            prop.agreement_id uid).1, .ok "Funds released") := by
      unfold vote_escrow_completion
      rw [hprop]
      dsimp only
      rw [hq0]
      dsimp only
      rw [if_pos hall]
      rw [hrel.1]
    refine ⟨by rw [hres], ?_, ?_, ?_, ?_, ?_⟩
    · rw [hres]
      exact hrel.2.1
    · intro r hr
      rw [hres]
      exact hrel.2.2.1 r hr
    · rw [hres]
      exact hrel.2.2.2.2.1
    · rw [hres]
      exact hrel.2.2.2.2.2.1
    · rw [hres]
      exact hrel.2.2.2.2.2.2.2

/-- Witness for C5: the last confirming vote releases 6000 and 4000 to the
two recipients, empties the initiator escrow of the 10000 total, records the
1000 commission and completes the agreement; a rejecting vote by the same
party instead leaves every wallet untouched and the agreement IN_PROGRESS. -/
theorem C5_unanimous_release_witness :
    (vote_escrow_completion C5db 50 3 true).2 = .ok "Funds released"
    ∧ ((vote_escrow_completion C5db 50 3 true).1.wallets 1).escrow_balance = 0
    ∧ (vote_escrow_completion C5db 50 3 true).1.wallets 2 = ⟨6000, 0⟩
    ∧ (vote_escrow_completion C5db 50 3 true).1.wallets 3 = ⟨4000, 0⟩
    ∧ (vote_escrow_completion C5db 50 3 true).1.platform_commissions
        = [("ESCROW_AGREEMENT", 1000)]
    ∧ (vote_escrow_completion C5db 50 3 true).1.agreements
        = [⟨40, 1, 10000, 1/10, 1000, "COMPLETED"⟩]
    ∧ (vote_escrow_completion C5db 50 3 false).2 = .ok "Vote recorded. Waiting for others."
    ∧ (vote_escrow_completion C5db 50 3 false).1.wallets = C5db.wallets
    ∧ (vote_escrow_completion C5db 50 3 false).1.agreements = C5db.agreements := by
  have h := C5_unanimous_release C5db 50 3 true ⟨50, 40, 2⟩
    ⟨40, 1, 10000, 1/10, 1000, "IN_PROGRESS"⟩ ⟨40, 3, "RECIPIENT", 4000, false⟩
    (by decide) (by decide)
  have hB := h.2.2 (by decide) (by simp [C5db, List.find?]) (by decide) (by decide)
    (by decide) (by decide) (by decide) (by
      norm_num [voteUpdatedParties, C5db, List.filter_cons, List.filter_nil,
        List.sum_cons, List.sum_nil]
      rw [if_neg (by decide)]
      norm_num [List.sum_cons, List.sum_nil])
  have h2 := C5_unanimous_release C5db 50 3 false ⟨50, 40, 2⟩
    ⟨40, 1, 10000, 1/10, 1000, "IN_PROGRESS"⟩ ⟨40, 3, "RECIPIENT", 4000, false⟩
    (by decide) (by decide)
  have hA := h2.2.1 (by decide)
  refine ⟨hB.1, ?_, ?_, ?_, ?_, ?_, by rw [hA], by rw [hA], by rw [hA]⟩
  · rw [hB.2.1]
    norm_num [voteUpdatedParties, C5db, List.filter_cons, List.filter_nil,
      List.sum_cons, List.sum_nil]
    rw [if_neg (by decide)]
    norm_num [List.sum_cons, List.sum_nil]
  · have := hB.2.2.1 ⟨40, 2, "RECIPIENT", 6000, true⟩ (by decide)
    rw [this]
    norm_num [C5db]
  · have := hB.2.2.1 ⟨40, 3, "RECIPIENT", 4000, true⟩ (by decide)
    rw [this]
    norm_num [C5db]
  · rw [hB.2.2.2.1]
    norm_num [C5db]
  · rw [hB.2.2.2.2.1]
    norm_num [C5db]

/-- C7 (code bug): the admin resolves the OPEN FOOD dispute BUYER_FAVOR; the
refund and the RESOLVED mark succeed and a second resolution is rejected
with 400 and no further change, but the order status is not set to
CANCELLED: the substring test in update_order_status always picks the plain
status column, so CANCELLED lands in the unused column and the lifecycle
order_status stays READY. -/
theorem C7_resolution_writes_wrong_status_column :
    (resolve_dispute C7db 70 "BUYER_FAVOR" 99).2 = .ok ()
    ∧ (resolve_dispute C7db 70 "BUYER_FAVOR" 99).1.wallets 1 = ⟨5000, 0⟩
    ∧ (resolve_dispute C7db 70 "BUYER_FAVOR" 99).1.disputes
        = [Dispute.mk 70 5 "FOOD" 1 2 "not delivered" "RESOLVED" (some 99)]
    ∧ (resolve_dispute C7db 70 "BUYER_FAVOR" 99).1.foodOrders
        = [FoodOrder.mk 5 1 2 4500 500 5000 "READY" (some "CANCELLED") "PAID" "HELD"]
    ∧ (resolve_dispute ((resolve_dispute C7db 70 "BUYER_FAVOR" 99).1) 70 "BUYER_FAVOR" 99).2
        = .error (.http 400 "Dispute not open for resolution")
    ∧ (resolve_dispute ((resolve_dispute C7db 70 "BUYER_FAVOR" 99).1) 70 "BUYER_FAVOR" 99).1
        = (resolve_dispute C7db 70 "BUYER_FAVOR" 99).1 := by
  have hpy : pyIn "order_status" "food_orders" = false := by decide
  have h1 : ¬("FOOD" = "DELIVERY") := by decide
  have h2 : ¬("FOOD" = "PRODUCT") := by decide
  have h3 : ¬("READY" = "") := by decide
  have h4 : ¬("food_orders" = "delivery_orders") := by decide
  have h5 : ¬("food_orders" = "product_orders") := by decide
  have h6 : ¬("RESOLVED" = "OPEN") := by decide
  have h7 : ¬("RESOLVED" = "UNDER_REVIEW") := by decide
  have h8 : ¬("RESOLVED" = "ESCALATED") := by decide
  have h9 : ¬("escrow_balance" = "balance") := by decide
  have h10 : ¬("status" = "order_status") := by decide
  refine ⟨?_, ?_, ?_, ?_, ?_, ?_⟩ <;>
    norm_num [resolve_dispute, C7db, is_admin, get_order, refund_escrow,
      update_order_status, update_wallet_balance, setWallet, hpy,
      h1, h2, h3, h4, h5, h6, h7, h8, h9, h10,
      List.find?, List.map_cons, List.map_nil]

end Servipal
